import Mathlib

/-! The schym evaluator: `src/interpreter/interpreter.c` and
`src/interpreter/builtins.c`.

A shallow embedding of the tree-walking evaluator (`run`, `funcCall`,
`runFunction`, `getNumVal`) and of the fourteen registry entries of
`staticbuiltins`, followed by theorems about them.

Conventions of the embedding:

* a C pointer that may be `NULL` is an `Option`;
* `node_copy` is the identity and `node_free` does nothing (values are
  persistent, ownership is not modelled);
* the C functions mutate `env` in place; here every function returns the
  environment it leaves behind;
* the native recursion of the C code is bounded by a depth budget (`fuel`):
  `run (fuel + 1)` makes its nested calls to `run` with budget `fuel`;
* behaviour the C standard leaves undefined, and failed assertions, are
  results of their own (`Fault`), so that they are never confused with a
  script-level error carried by a `RunResult`;
* the number that an address is when converted to `double` is read from a
  sequence carried by the environment, about which nothing is assumed.
-/

namespace Schym

/-! ## The C type `double` -/

/-- An IEEE-754 binary64 number: not-a-number, an infinity, or the finite
value `(-1)^neg * mant * 2^exp`.  The arithmetic below returns finite values
in canonical form: `mant < 2^53`, `-1074 ≤ exp ≤ 971`, and `2^52 ≤ mant`
unless `exp = -1074`. -/
inductive Double where
  | nan
  | inf (neg : Bool)
  | fin (neg : Bool) (mant : Nat) (exp : Int)
  deriving DecidableEq, Repr

namespace Double

/-- Two to the power `e`, and `1` when `e` is negative. -/
def pow2 (e : Int) : Nat := 2 ^ e.toNat

/-- Number of binary digits of `n`, computed with at most `fuel` halvings. -/
def bitLen : Nat → Nat → Nat
  | 0, _ => 0
  | fuel + 1, n => if n = 0 then 0 else bitLen fuel (n / 2) + 1

/-- Floor of the binary logarithm (`0` for `0`). -/
def log2 (n : Nat) : Nat := bitLen n n - 1

/-- Round the exact value `(-1)^neg * num / den` (with `den > 0`) to
binary64, to nearest, ties to even; overflow gives an infinity, underflow a
subnormal or a signed zero. -/
def round (neg : Bool) (num den : Nat) : Double :=
  if num = 0 then fin neg 0 (-1074) else
  let l : Int := (log2 num : Int) - (log2 den : Int)
  let e0 : Int := max (l - 53) (-1074)
  let q0 := (num * pow2 (-e0)) / (den * pow2 e0)
  let e : Int := if 2 ^ 53 ≤ q0 then e0 + 1 else e0
  let n := num * pow2 (-e)
  let d := den * pow2 e
  let q := n / d
  let r := n % d
  let q1 := if d < 2 * r ∨ (2 * r = d ∧ q % 2 = 1) then q + 1 else q
  let m := if q1 = 2 ^ 53 then 2 ^ 52 else q1
  let e1 : Int := if q1 = 2 ^ 53 then e + 1 else e
  if 971 < e1 then inf neg else fin neg m e1

/-- Conversion of a non-negative integer constant to `double`. -/
def ofNat (n : Nat) : Double := round false n 1

/-- The integer `(-1)^neg * m`. -/
def signed (neg : Bool) (m : Nat) : Int := if neg then - (m : Int) else (m : Int)

/-- C `a + b` on doubles. -/
def add : Double → Double → Double
  | nan, _ => nan
  | _, nan => nan
  | inf s, inf t => if s = t then inf s else nan
  | inf s, fin _ _ _ => inf s
  | fin _ _ _, inf t => inf t
  | fin s1 m1 e1, fin s2 m2 e2 =>
    let e := min e1 e2
    let i := signed s1 (m1 * pow2 (e1 - e)) + signed s2 (m2 * pow2 (e2 - e))
    if i = 0 then fin (s1 && s2) 0 (-1074)
    else round (decide (i < 0)) (i.natAbs * pow2 e) (pow2 (-e))

/-- C unary minus on doubles. -/
def neg : Double → Double
  | nan => nan
  | inf s => inf (!s)
  | fin s m e => fin (!s) m e

/-- C `a - b` on doubles. -/
def sub (a b : Double) : Double := add a (neg b)

/-- C `a * b` on doubles. -/
def mul : Double → Double → Double
  | nan, _ => nan
  | _, nan => nan
  | inf s, inf t => inf (xor s t)
  | inf s, fin t m _ => if m = 0 then nan else inf (xor s t)
  | fin s m _, inf t => if m = 0 then nan else inf (xor s t)
  | fin s1 m1 e1, fin s2 m2 e2 =>
    round (xor s1 s2) (m1 * m2 * pow2 (e1 + e2)) (pow2 (-(e1 + e2)))

/-- C `a / b` on doubles: a finite non-zero value divided by zero is an
infinity, zero divided by zero is not-a-number. -/
def div : Double → Double → Double
  | nan, _ => nan
  | _, nan => nan
  | inf _, inf _ => nan
  | inf s, fin t _ _ => inf (xor s t)
  | fin s _ _, inf t => fin (xor s t) 0 (-1074)
  | fin s1 m1 e1, fin s2 m2 e2 =>
    if m2 = 0 then (if m1 = 0 then nan else inf (xor s1 s2))
    else round (xor s1 s2) (m1 * pow2 e1 * pow2 (-e2)) (m2 * pow2 e2 * pow2 (-e1))

/-- C `a < b` on doubles (false as soon as one side is not-a-number). -/
def lt : Double → Double → Bool
  | nan, _ => false
  | _, nan => false
  | inf s, inf t => s && !t
  | inf s, fin _ _ _ => s
  | fin _ _ _, inf t => !t
  | fin s1 m1 e1, fin s2 m2 e2 =>
    let e := min e1 e2
    decide (signed s1 (m1 * pow2 (e1 - e)) < signed s2 (m2 * pow2 (e2 - e)))

/-- C `a > b` on doubles. -/
def gt (a b : Double) : Bool := lt b a

/-- C `a == b` on doubles: not-a-number equals nothing, the two zeros are
equal. -/
def eq : Double → Double → Bool
  | nan, _ => false
  | _, nan => false
  | inf s, inf t => s == t
  | inf _, fin _ _ _ => false
  | fin _ _ _, inf _ => false
  | fin s1 m1 e1, fin s2 m2 e2 =>
    let e := min e1 e2
    decide (signed s1 (m1 * pow2 (e1 - e)) = signed s2 (m2 * pow2 (e2 - e)))

/-- C `a != b` on doubles. -/
def ne (a b : Double) : Bool := !(eq a b)

/-- Conversion of the `int` result of a C comparison (0 or 1) to `double`. -/
def ofBool (b : Bool) : Double := if b then ofNat 1 else ofNat 0

/-- Truth value of a double used as a C condition: `d != 0`.  Both zeros
are false; infinities and not-a-number are true. -/
def truthy : Double → Bool
  | nan => true
  | inf _ => true
  | fin _ m _ => m != 0

end Double

/-! ## Nodes (`ast.h`, not part of the two source files) -/

/-- The type tag `node->type`. -/
inductive NodeType where
  | AST_NUM | AST_STR | AST_VAR | AST_QUOTED | AST_EXPR | AST_COMMENT | AST_FUN
  deriving DecidableEq, Repr

/-- The native callables of `builtins.c`, as the values a `Function`'s `fn`
pointer can take. -/
inductive BuiltinFn where
  | builtin_print | builtin_arith | builtin_comp | builtin_do
  | builtin_if | builtin_set | builtin_let | builtin_streq
  deriving DecidableEq, Repr

mutual
/-- Modelled from the spec: the tagged `Node` of `ast.h` (§3 of the
specification): Number, String, Variable-reference, Quoted, Expression,
Comment, Function. -/
inductive Node where
  | num (val : Double)
  | str (str : String)
  | var (name : String)
  | quoted (node : Node)
  | expr (nodes : List Node)
  | comment
  | function (fn : Function)
/-- Modelled from the spec: the `Function` of `ast.h`: a builtin
(`isBuiltin`, with its native callable `fn`) or a user-defined function with
its parameter-name nodes `args` and its `body`. -/
inductive Function where
  | builtin (fn : BuiltinFn)
  | user (args : List Node) (body : Node)
end

/-- The field `node->type`. -/
def Node.type : Node → NodeType
  | .num _ => .AST_NUM
  | .str _ => .AST_STR
  | .var _ => .AST_VAR
  | .quoted _ => .AST_QUOTED
  | .expr _ => .AST_EXPR
  | .comment => .AST_COMMENT
  | .function _ => .AST_FUN

/-- Deep copy: values are persistent, so the copy is the node itself;
`node_copy(NULL)` is `NULL` (`runFunction` calls it on the `NULL` node of a
failed result). -/
def node_copy (node : Option Node) : Option Node := node

/-! ## Results (`interpreter.c`, lines 28-62) -/

/-- One argument of an `rr_errf` format string. -/
inductive FmtArg where
  /-- An integer printed with `%d`. -/
  | d (n : Nat)
  /-- A string printed with `%s`. -/
  | s (s : String)
  /-- The string `typetostr` gives for a node of this type, printed with `%s`. -/
  | typetostr (t : NodeType)
  deriving DecidableEq, Repr

/-- The text built by `rr_errf`: the format string and its arguments
(`vasprintf` is not evaluated). -/
structure ErrText where
  format : String
  args : List FmtArg
  deriving DecidableEq, Repr

/-- The C struct `RunResult`: a node pointer and an error pointer. -/
structure RunResult where
  node : Option Node
  err : Option ErrText

/-- The C function `rr_null`. -/
def rr_null : RunResult := { node := none, err := none }

/-- The C function `rr_errf`. -/
def rr_errf (format : String) (args : List FmtArg) : RunResult :=
  { node := none, err := some { format := format, args := args } }

/-- The C function `rr_node`. -/
def rr_node (node : Option Node) : RunResult := { node := node, err := none }

/-! ## The variable map (`internal.h`, not part of the two source files) -/

/-- Modelled from the spec: the variable map behind `env->variables`, "a
mutable mapping from variable name to an owned Node value", keys unique. -/
abbrev VarMap := List (String × Node)

/-- Modelled from the spec: `varmap_getItem`, the value stored under `key`,
`NULL` when there is none (`run` tests its result against `NULL`). -/
def varmap_getItem : VarMap → String → Option Node
  | [], _ => none
  | (k, v) :: rest, key => if k = key then some v else varmap_getItem rest key

/-- Modelled from the spec: `varmap_removeItem`, after which `key` is
unbound and every other name is as before. -/
def varmap_removeItem : VarMap → String → VarMap
  | [], _ => []
  | (k, v) :: rest, key =>
    if k = key then varmap_removeItem rest key else (k, v) :: varmap_removeItem rest key

/-- Modelled from the spec: `varmap_setItem`, which stores `val` under
`key`, "overwriting any existing binding".  A `NULL` value (`runFunction`
can pass one) leaves the name reading as `NULL`. -/
def varmap_setItem (m : VarMap) (key : String) (val : Option Node) : VarMap :=
  match val with
  | none => varmap_removeItem m key
  | some v => (key, v) :: varmap_removeItem m key

/-! ## The environment and the process -/

/-- Something written to standard output. -/
inductive OutEvent where
  /-- The C call `putchar(c)`. -/
  | putchar (c : Char)
  /-- The C call `printf("%s", toString(node))`; `toString` (`stringify.h`) is
  not evaluated. -/
  | printf_toString (node : Option Node)

/-- The C struct `InterEnv`, whose only field `variables` is called `vars`
here (`variables` is a reserved word), together with two pieces of the state
of the process that are threaded with it: what has been written to standard
output so far, and the numbers that the addresses converted by `getNumVal`
will turn out to be. -/
structure InterEnv where
  vars : VarMap
  stdout : List OutEvent
  /-- The values `(double)(long)p` of the addresses `p` that `getNumVal`
  converts from now on, in the order of the conversions.  Where the process
  keeps its strings is not decided by the two source files, so any sequence
  is possible and no relation between two conversions is assumed; the
  sequence 1, 2, 3, ... used when none is given stands for distinct addresses
  other than `NULL`. -/
  addresses : Nat → Double := fun n => Double.ofNat (n + 1)

/-- The value of the next address that `getNumVal` converts. -/
def InterEnv.nextAddress (env : InterEnv) : Double := env.addresses 0

/-- The environment after one address has been converted. -/
def InterEnv.afterAddress (env : InterEnv) : InterEnv :=
  { env with addresses := fun n => env.addresses (n + 1) }

/-- The C function `in_make`. -/
def in_make : InterEnv := { vars := [], stdout := [] }

/-- Ways in which the C code stops without returning a `RunResult`. -/
inductive Fault where
  /-- The depth budget of the embedding is used up (not a behaviour of the
  program). -/
  | outOfFuel
  /-- An `assert` failed. -/
  | assertFail
  /-- A `NULL` pointer was dereferenced. -/
  | nullDeref
  /-- A variable or field was read before anything was stored in it. -/
  | uninitRead
  /-- A member of the node union was read that is not the one of the node's
  type. -/
  | wrongUnionMember
  deriving DecidableEq, Repr

/-- What a call yields: a fault, or a `RunResult` and the environment left
behind. -/
abbrev Outcome := Except Fault (RunResult × InterEnv)

/-- The evaluator `run` as seen by the code it calls. -/
abbrev Runner := InterEnv → Node → Outcome

/-- The function `getNumVal` as seen by the code it calls. -/
abbrev NumReader := InterEnv → Node → Except Fault (Double × InterEnv)

/-! ## The builtins (`builtins.c`) -/

/-- The result returned by a failing `EXPECT(cond)`:
`rr_errf("expected nargs (%d) to be %s", nargs, #cond)`. -/
def EXPECT_fail (nargs : Nat) (cond : String) : RunResult :=
  rr_errf "expected nargs (%d) to be %s" [.d nargs, .s cond]

/-- The result returned by a failing `EXPECT_TYPE(narg, typ)`:
`rr_errf("expected argument %d to be of type %s", narg, #typ)`. -/
def EXPECT_TYPE_fail (narg : Nat) (typ : String) : RunResult :=
  rr_errf "expected argument %d to be of type %s" [.d narg, .s typ]

/-- The statement `return rr;` for a local `RunResult rr;` declared without
an initialiser: `none` is the variable before its first assignment. -/
def return_rr (rr : Option RunResult) (env : InterEnv) : Outcome :=
  match rr with
  | none => .error .uninitRead
  | some rr => .ok (rr, env)

/-- Append one event to standard output. -/
def InterEnv.write (env : InterEnv) (e : OutEvent) : InterEnv :=
  { env with stdout := env.stdout ++ [e] }

/-- The `for` loop of `builtin_print` from index `i` on, and the two
statements after it. -/
def builtin_print.loop (run : Runner) : List Node → Nat → InterEnv → Outcome
  | [], _, env => .ok (rr_null, env.write (.putchar '\n'))
  | arg :: rest, i, env =>
    let env := if i ≠ 0 then env.write (.putchar ' ') else env
    match run env arg with
    | .error f => .error f
    | .ok (rr, env) =>
      match rr.err with
      | some _ => .ok (rr, env)
      | none => builtin_print.loop run rest (i + 1) (env.write (.printf_toString rr.node))

/-- The C function `builtin_print`. -/
def builtin_print (run : Runner) (env : InterEnv) (_name : String) (args : List Node) :
    Outcome :=
  if ¬ (args.length ≥ 1) then .ok (EXPECT_fail args.length ">= 1", env)
  else builtin_print.loop run args 0 env

/-- The `switch (symbol)` of `builtin_arith`; `none` when no case matches and
`res->num.val` is left as `malloc` returned it. -/
def builtin_arith.switch (symbol : Option Char) (n1 n2 : Double) : Option Double :=
  match symbol with
  | some '+' => some (Double.add n1 n2)
  | some '-' => some (Double.sub n1 n2)
  | some '/' => some (Double.div n1 n2)
  | some '*' => some (Double.mul n1 n2)
  | _ => none

/-- The C function `builtin_arith`.  Neither `rr1.err` nor `rr2.err` is
looked at, and `rr1.node->type` is read before `rr2.node->type`. -/
def builtin_arith (run : Runner) (env : InterEnv) (name : String) (args : List Node) :
    Outcome :=
  match args with
  | [a0, a1] =>
    match run env a0 with
    | .error f => .error f
    | .ok (rr1, env) =>
      match run env a1 with
      | .error f => .error f
      | .ok (rr2, env) =>
        match rr1.node with
        | none => .error .nullDeref
        | some (.num n1) =>
          match rr2.node with
          | none => .error .nullDeref
          | some (.num n2) =>
            match builtin_arith.switch name.data.head? n1 n2 with
            | some val => .ok (rr_node (some (.num val)), env)
            | none => .error .uninitRead
          | some _ => .ok (rr_errf "both arguments should be a number" [], env)
        | some _ => .ok (rr_errf "both arguments should be a number" [], env)
  | _ => .ok (EXPECT_fail args.length "== 2", env)

/-- The `if`/`else if` chain on `name` of `builtin_comp`; `none` when no
branch is taken and `res->num.val` is left as `malloc` returned it. -/
def builtin_comp.select (name : String) (n1 n2 : Double) : Option Double :=
  if name = "eq" then some (Double.ofBool (Double.eq n1 n2))
  else if name = "neq" then some (Double.ofBool (Double.ne n1 n2))
  else if name = "lt" then some (Double.ofBool (Double.lt n1 n2))
  else if name = "gt" then some (Double.ofBool (Double.gt n1 n2))
  else none

/-- The C function `builtin_comp`. -/
def builtin_comp (getNumVal : NumReader) (env : InterEnv) (name : String)
    (args : List Node) : Outcome :=
  match args with
  | [a0, a1] =>
    match getNumVal env a0 with
    | .error f => .error f
    | .ok (n1, env) =>
      match getNumVal env a1 with
      | .error f => .error f
      | .ok (n2, env) =>
        match builtin_comp.select name n1 n2 with
        | some val => .ok (rr_node (some (.num val)), env)
        | none => .error .uninitRead
  | _ => .ok (EXPECT_fail args.length "== 2", env)

/-- The `for` loop of `builtin_do` over the arguments still to run, and the
`return rr;` after it. -/
def builtin_do.loop (run : Runner) : List Node → InterEnv → Option RunResult → Outcome
  | [], env, rr => return_rr rr env
  | arg :: rest, env, _ =>
    match run env arg with
    | .error f => .error f
    | .ok (rr, env) =>
      match rr.err with
      | some _ => .ok (rr, env)
      | none => builtin_do.loop run rest env (some rr)

/-- The C function `builtin_do`. -/
def builtin_do (run : Runner) (env : InterEnv) (_name : String) (args : List Node) :
    Outcome :=
  if ¬ (args.length ≥ 1) then .ok (EXPECT_fail args.length ">= 1", env)
  else builtin_do.loop run args env none

/-- The C function `builtin_if`.  After the two `EXPECT`s the argument list
is `args[0], args[1]` followed by at most one more node, and `nargs == 3`
exactly when that node is there. -/
def builtin_if (run : Runner) (env : InterEnv) (_name : String) (args : List Node) :
    Outcome :=
  match args with
  | a0 :: a1 :: rest =>
    if ¬ (args.length ≤ 3) then .ok (EXPECT_fail args.length "<= 3", env)
    else
      match run env a0 with
      | .error f => .error f
      | .ok (cond_rr, env) =>
        match cond_rr.err with
        | some _ => .ok (cond_rr, env)
        | none =>
          match cond_rr.node with
          | none => .error .nullDeref
          | some (.num val) =>
            if val.truthy then run env a1
            else
              match rest with
              | a2 :: _ => run env a2
              | [] => .ok (rr_null, env)
          | some _ => .ok (rr_errf "expected cond to have type AST_NUM" [], env)
  | _ => .ok (EXPECT_fail args.length ">= 2", env)

/-- The C function `builtin_set`. -/
def builtin_set (run : Runner) (env : InterEnv) (_name : String) (args : List Node) :
    Outcome :=
  match args with
  | [a0, a1] =>
    match a0 with
    | .var x =>
      match run env a1 with
      | .error f => .error f
      | .ok (rr, env) =>
        match rr.err with
        | some _ => .ok (rr, env)
        | none =>
          match rr.node with
          | none => .ok (rr_null, { env with vars := varmap_removeItem env.vars x })
          | some n => .ok (rr_null, { env with vars := varmap_setItem env.vars x (some n) })
    | _ => .ok (EXPECT_TYPE_fail 0 "AST_VAR", env)
  | _ => .ok (EXPECT_fail args.length "== 2", env)

/-- The `for` loop of `builtin_let` over the body arguments still to run, and
the two statements after it; `a0` is `args[0]`, whose `var.name` is read
whatever its type. -/
def builtin_let.loop (run : Runner) (a0 : Node) :
    List Node → InterEnv → Option RunResult → Outcome
  | [], env, rr =>
    match a0 with
    | .var x => return_rr rr { env with vars := varmap_removeItem env.vars x }
    | _ => .error .wrongUnionMember
  | arg :: rest, env, _ =>
    match run env arg with
    | .error f => .error f
    | .ok (rr, env) =>
      match rr.err with
      | some _ => .ok (rr, env)
      | none => builtin_let.loop run a0 rest env (some rr)

/-- The C function `builtin_let`.  The result of the call
`builtin_set(env, "set", 2, args)` is dropped. -/
def builtin_let (run : Runner) (env : InterEnv) (_name : String) (args : List Node) :
    Outcome :=
  match args with
  | a0 :: a1 :: a2 :: rest =>
    match builtin_set run env "set" [a0, a1] with
    | .error f => .error f
    | .ok (_, env) => builtin_let.loop run a0 (a2 :: rest) env none
  | _ => .ok (EXPECT_fail args.length ">= 3", env)

/-- The C function `builtin_streq`.  Neither `rr1.err` nor `rr2.err` is
looked at; two strings at the same address have the same content, so the
disjunction is equality of content. -/
def builtin_streq (run : Runner) (env : InterEnv) (_name : String) (args : List Node) :
    Outcome :=
  match args with
  | [a0, a1] =>
    match run env a0 with
    | .error f => .error f
    | .ok (rr1, env) =>
      match run env a1 with
      | .error f => .error f
      | .ok (rr2, env) =>
        match rr1.node with
        | none => .error .nullDeref
        | some (.str s1) =>
          match rr2.node with
          | none => .error .nullDeref
          | some (.str s2) =>
            .ok (rr_node (some (.num (Double.ofBool (decide (s1 = s2))))), env)
          | some _ => .ok (rr_errf "both arguments should be a string" [], env)
        | some _ => .ok (rr_errf "both arguments should be a string" [], env)
  | _ => .ok (EXPECT_fail args.length "== 2", env)

/-- One entry of the registry: the C struct `Builtin`. -/
structure Builtin where
  name : String
  enabled : Bool
  fn : BuiltinFn
  deriving DecidableEq, Repr

/-- Modelled from the spec: the member `builtin->function` that `funcCall`
passes to `runFunction`, the builtin `Function` whose native callable is the
entry's `fn`. -/
def Builtin.function (b : Builtin) : Function := .builtin b.fn

/-- The table `staticbuiltins`. -/
def staticbuiltins : List Builtin :=
  [ { name := "print", enabled := true, fn := .builtin_print },
    { name := "+", enabled := true, fn := .builtin_arith },
    { name := "-", enabled := true, fn := .builtin_arith },
    { name := "/", enabled := true, fn := .builtin_arith },
    { name := "*", enabled := true, fn := .builtin_arith },
    { name := "eq", enabled := true, fn := .builtin_comp },
    { name := "neq", enabled := true, fn := .builtin_comp },
    { name := "lt", enabled := true, fn := .builtin_comp },
    { name := "gt", enabled := true, fn := .builtin_comp },
    { name := "do", enabled := true, fn := .builtin_do },
    { name := "if", enabled := true, fn := .builtin_if },
    { name := "set", enabled := true, fn := .builtin_set },
    { name := "let", enabled := true, fn := .builtin_let },
    { name := "streq", enabled := true, fn := .builtin_streq } ]

/-- The constant `STATIC_BUILTIN_COUNT`. -/
def STATIC_BUILTIN_COUNT : Nat := 14

/-- The linear scan of `getBuiltin` over a table. -/
def getBuiltin.scan (name : String) : List Builtin → Option Builtin
  | [] => none
  | builtin :: rest => if name = builtin.name then some builtin else getBuiltin.scan name rest

/-- The C function `getBuiltin`. -/
def getBuiltin (name : String) : Option Builtin :=
  getBuiltin.scan name (staticbuiltins.take STATIC_BUILTIN_COUNT)

/-- The call `fn->fn(env, name, nargs, args)` through a native function
pointer. -/
def callNative (run : Runner) (getNumVal : NumReader) :
    BuiltinFn → InterEnv → String → List Node → Outcome
  | .builtin_print => builtin_print run
  | .builtin_arith => builtin_arith run
  | .builtin_comp => builtin_comp getNumVal
  | .builtin_do => builtin_do run
  | .builtin_if => builtin_if run
  | .builtin_set => builtin_set run
  | .builtin_let => builtin_let run
  | .builtin_streq => builtin_streq run

/-! ## The evaluator (`interpreter.c`) -/

/-- The C function `getNumVal`, with a budget for its own recursion.  For a
String, and for a Quoted Variable-reference, it returns the address of the
characters converted to `double` (lines 82 and 86), which is the next value
of `env.addresses`; the line that the String case writes to standard error
is not recorded. -/
def getNumVal (run : Runner) : Nat → InterEnv → Node → Except Fault (Double × InterEnv)
  | 0, _, _ => .error .outOfFuel
  | fuel + 1, env, node =>
    match node with
    | .num val => .ok (val, env)
    | .var _ | .expr _ =>
      match run env node with
      | .error f => .error f
      | .ok (rr, env) =>
        match rr.err with
        | some _ => .error .assertFail
        | none =>
          match rr.node with
          | none => .error .nullDeref
          | some n => getNumVal run fuel env n
    | .str _ => .ok (env.nextAddress, env.afterAddress)
    | .quoted (.var _) => .ok (env.nextAddress, env.afterAddress)
    | .quoted _ => .error .assertFail
    | _ => .ok (Double.ofNat 0, env)

/-- The first `for` loop of `runFunction`, over the parameters still to bind
and the argument nodes from the same index on.  The flag tells whether the
loop was left by `goto exit`. -/
def runFunction.loop (run : Runner) :
    List Node → List Node → InterEnv → Except Fault (Bool × InterEnv)
  | [], _, env => .ok (false, env)
  | _ :: _, [], _ => .error .assertFail
  | param :: params, arg :: args, env =>
    match run env arg with
    | .error f => .error f
    | .ok (rr, env) =>
      match rr.err with
      | some _ => .ok (true, env)
      | none =>
        match param with
        | .var x =>
          runFunction.loop run params args
            { env with vars := varmap_setItem env.vars x (node_copy rr.node) }
        | _ => .error .wrongUnionMember

/-- The `for` loop after the label `exit` of `runFunction`. -/
def runFunction.cleanup : List Node → VarMap → Except Fault VarMap
  | [], m => .ok m
  | .var x :: params, m => runFunction.cleanup params (varmap_removeItem m x)
  | _ :: _, _ => .error .wrongUnionMember

/-- The code of `runFunction` from the label `exit` to line 120: the cleanup
loop, reached on every path.  `rr` is the `RunResult rr` declared at line
112; it is `none` when `goto exit` jumped over its initialisation.  It is
handed on together with the environment in which line 122 is reached. -/
def runFunction.exit (params : List Node) (rr : Option RunResult) (env : InterEnv) :
    Except Fault (Option RunResult × InterEnv) :=
  match runFunction.cleanup params env.vars with
  | .error f => .error f
  | .ok vars => .ok (rr, { env with vars := vars })

/-- The code of `runFunction` for a user-defined function from line 101 to
line 120: the loop over the arguments, the evaluation of the body, and the
cleanup loop.  It yields the `RunResult rr` of line 112, if initialised, and
the environment in which the last two statements are reached. -/
def runFunction.toReturn (run : Runner) (params : List Node) (body : Node)
    (args : List Node) (env : InterEnv) : Except Fault (Option RunResult × InterEnv) :=
  match runFunction.loop run params args env with
  | .error f => .error f
  | .ok (true, env) => runFunction.exit params none env
  | .ok (false, env) =>
    match run env body with
    | .error f => .error f
    | .ok (rr, env) => runFunction.exit params (some rr) env

/-- The last two statements of `runFunction`, lines 122-123:
`rr.node = node_copy(rr.node); return rr;`, which read `rr`. -/
def runFunction.returnCopy (rr : Option RunResult) (env : InterEnv) : Outcome :=
  match rr with
  | none => .error .uninitRead
  | some rr => .ok ({ rr with node := node_copy rr.node }, env)

/-- The C function `runFunction`. -/
def runFunction (run : Runner) (getNumVal : NumReader) (env : InterEnv) (fn : Function)
    (name : String) (args : List Node) : Outcome :=
  match fn with
  | .builtin f => callNative run getNumVal f env name args
  | .user params body =>
    match runFunction.toReturn run params body args env with
    | .error f => .error f
    | .ok (rr, env) => runFunction.returnCopy rr env

/-- The C function `funcCall`.  The node returned by `varmap_getItem` is
dereferenced without a test against `NULL`. -/
def funcCall (run : Runner) (getNumVal : NumReader) (env : InterEnv) (name : String)
    (args : List Node) : Outcome :=
  match getBuiltin name with
  | some builtin => runFunction run getNumVal env builtin.function name args
  | none =>
    match varmap_getItem env.vars name with
    | none => .error .nullDeref
    | some (.function fn) => runFunction run getNumVal env fn name args
    | some _ => .ok (rr_errf "no function '%s' found" [.s name], env)

/-- The C function `run`, with depth budget `fuel`: the calls to `run` and
`getNumVal` made below this call have budget `fuel - 1`. -/
def run : Nat → InterEnv → Node → Outcome
  | 0, _, _ => .error .outOfFuel
  | fuel + 1, env, node =>
    match node with
    | .quoted _ | .str _ | .num _ => .ok (rr_node (node_copy (some node)), env)
    | .expr nodes =>
      match nodes with
      | [] => .ok (rr_errf "Non-quoted expression can't be empty" [], env)
      | head :: args =>
        match head with
        | .var name => funcCall (run fuel) (getNumVal (run fuel) fuel) env name args
        | _ => .ok (rr_errf "Cannot call non-variable (type %s)" [.typetostr head.type], env)
    | .var name =>
      match varmap_getItem env.vars name with
      | none => .ok (rr_null, env)
      | some val => .ok (rr_node (node_copy (some val)), env)
    | .comment => .ok (rr_null, env)
    | .function _ => .error .assertFail

/-- The C function `in_run` (the `InternedNode` wrapper is its node). -/
def in_run (fuel : Nat) (env : InterEnv) (node : Node) : Outcome := run fuel env node

/-! ## Sequential evaluation, as the specification words it -/

/-- The nodes `b :: bs` are evaluated one after the other, each in the
environment left by the one before it, and none of them fails: `r` is the
result of the last node and `env'` the environment it leaves. -/
def RunsInOrder (run : Runner) :
    InterEnv → Node → List Node → RunResult → InterEnv → Prop
  | env, b, [], r, env' => run env b = .ok (r, env') ∧ r.err = none
  | env, b, b' :: bs, r, env' =>
    ∃ (r1 : RunResult) (env1 : InterEnv),
      run env b = .ok (r1, env1) ∧ r1.err = none ∧ RunsInOrder run env1 b' bs r env'

/-- The nodes `bs` are evaluated one after the other from `env`, each in the
environment left by the one before it, and none of them fails: `env'` is the
environment the last one leaves (`env` itself when `bs` is empty). -/
def RunsAll (run : Runner) : InterEnv → List Node → InterEnv → Prop
  | env, [], env' => env' = env
  | env, b :: bs, env' =>
    ∃ (r1 : RunResult) (env1 : InterEnv),
      run env b = .ok (r1, env1) ∧ r1.err = none ∧ RunsAll run env1 bs env'

/-! ## Agreement of evaluators up to the depth budget -/

/-- The arities of section 4.3 of the specification: `print` and `do` take
at least 1 argument, `if` takes 2 or 3, `let` at least 3, and `+ - / *`,
`eq neq lt gt`, `streq` and `set` exactly 2. -/
def arityAllows (name : String) (n : Nat) : Bool :=
  if name = "print" ∨ name = "do" then decide (1 ≤ n)
  else if name = "if" then decide (n = 2 ∨ n = 3)
  else if name = "let" then decide (3 ≤ n)
  else if name ∈ ["+", "-", "/", "*", "eq", "neq", "lt", "gt", "streq", "set"] then
    decide (n = 2)
  else false

/-! ## Value kinds and depth of nesting -/

/-- A node that is a Number, a String or a Quoted value. -/
def Node.isValue : Node → Bool
  | .num _ => true
  | .str _ => true
  | .quoted _ => true
  | _ => false

/-- Every value stored in the environment is a Number, a String or a Quoted
value. -/
def ValueEnv (env : InterEnv) : Bool := env.vars.all fun p => p.2.isValue

mutual
/-- Depth of nesting of a node: 1 for a node without children. -/
def Node.depth : Node → Nat
  | .quoted n => n.depth + 1
  | .expr ns => Node.depthList ns + 1
  | .function f => Function.depth f + 1
  | _ => 1
/-- The largest depth among the nodes of a list. -/
def Node.depthList : List Node → Nat
  | [] => 0
  | n :: ns => max n.depth (Node.depthList ns)
/-- The largest depth among the parameter nodes and the body of a function. -/
def Function.depth : Function → Nat
  | .builtin _ => 0
  | .user args body => max (Node.depthList args) body.depth
end

theorem varmap_getItem_removeItem_self (m : VarMap) (key : String) :
    varmap_getItem (varmap_removeItem m key) key = none := by
  induction m with
  | nil => rfl
  | cons p rest ih =>
    obtain ⟨k, v⟩ := p
    by_cases h : k = key
    · simp [varmap_removeItem, h, ih]
    · simp [varmap_removeItem, varmap_getItem, h, ih]

theorem varmap_getItem_removeItem_other (m : VarMap) (key other : String) (h : other ≠ key) :
    varmap_getItem (varmap_removeItem m key) other = varmap_getItem m other := by
  induction m with
  | nil => rfl
  | cons p rest ih =>
    obtain ⟨k, v⟩ := p
    by_cases hk : k = key
    · have hko : ¬ k = other := fun e => h (e ▸ hk)
      simp only [varmap_removeItem, varmap_getItem, if_pos hk, if_neg hko, ih]
    · by_cases ho : k = other
      · simp only [varmap_removeItem, varmap_getItem, if_neg hk, if_pos ho]
      · simp only [varmap_removeItem, varmap_getItem, if_neg hk, if_neg ho, ih]

theorem varmap_getItem_setItem_self (m : VarMap) (key : String) (val : Option Node) :
    varmap_getItem (varmap_setItem m key val) key = val := by
  cases val with
  | none => exact varmap_getItem_removeItem_self m key
  | some v => simp [varmap_setItem, varmap_getItem]

theorem varmap_getItem_setItem_other (m : VarMap) (key other : String) (val : Option Node)
    (h : other ≠ key) :
    varmap_getItem (varmap_setItem m key val) other = varmap_getItem m other := by
  cases val with
  | none => exact varmap_getItem_removeItem_other m key other h
  | some v =>
    simp [varmap_setItem, varmap_getItem, Ne.symm h,
      varmap_getItem_removeItem_other m key other h]

/-! ## Dispatch -/

theorem getBuiltin_of_mem (b : Builtin) (hb : b ∈ staticbuiltins) :
    getBuiltin b.name = some b := by
  simp only [staticbuiltins, List.mem_cons, List.mem_singleton, List.not_mem_nil, or_false] at hb
  rcases hb with h | h | h | h | h | h | h | h | h | h | h | h | h | h <;> subst h <;> rfl

theorem getBuiltin_scan_some (name : String) (table : List Builtin) (b : Builtin)
    (h : getBuiltin.scan name table = some b) : b.name = name ∧ b ∈ table := by
  induction table with
  | nil => simp [getBuiltin.scan] at h
  | cons c rest ih =>
    by_cases hc : name = c.name
    · simp [getBuiltin.scan, hc] at h
      subst h
      exact ⟨hc.symm, List.mem_cons_self _ _⟩
    · simp [getBuiltin.scan, hc] at h
      exact ⟨(ih h).1, List.mem_cons_of_mem _ (ih h).2⟩

theorem run_call (fuel : Nat) (env : InterEnv) (name : String) (args : List Node) :
    run (fuel + 1) env (.expr (.var name :: args))
      = funcCall (run fuel) (getNumVal (run fuel) fuel) env name args := rfl

theorem run_builtin (fuel : Nat) (env : InterEnv) (b : Builtin) (args : List Node)
    (hb : getBuiltin b.name = some b) :
    run (fuel + 1) env (.expr (.var b.name :: args))
      = callNative (run fuel) (getNumVal (run fuel) fuel) b.fn env b.name args := by
  rw [run_call]
  simp only [funcCall, hb, runFunction, Builtin.function]

/-! ## More budget never changes a result -/

/-- C1: for every environment, `run` on an Expression without children
returns the error "Non-quoted expression can't be empty" (EmptyCall) and no
node; on an Expression whose first child is not a Variable-reference it
returns the error "Cannot call non-variable (type %s)" (InvalidHead) and no
node.  In both cases the environment (and standard output) is returned
unchanged, and the result is reached with depth budget 1, under which no
nested evaluation can return: no argument is evaluated. -/
theorem C1_run_expr_empty_or_bad_head (fuel : Nat) (env : InterEnv) (head : Node)
    (args : List Node) (hhead : head.type ≠ NodeType.AST_VAR) :
    run (fuel + 1) env (.expr [])
        = .ok ({ node := none,
                 err := some { format := "Non-quoted expression can't be empty", args := [] } },
               env)
      ∧ run (fuel + 1) env (.expr (head :: args))
        = .ok ({ node := none,
                 err := some { format := "Cannot call non-variable (type %s)",
                               args := [FmtArg.typetostr head.type] } },
               env) := by
  refine ⟨rfl, ?_⟩
  cases head with
  | var name => exact absurd rfl hhead
  | num _ => rfl
  | str _ => rfl
  | quoted _ => rfl
  | expr _ => rfl
  | comment => rfl
  | function _ => rfl

/-- C1 at `(1 2 3)` and at `()`, in an environment that binds `x`, with depth
budget 1. -/
theorem C1_run_expr_empty_or_bad_head_witness :
    (Node.num (Double.ofNat 1)).type ≠ NodeType.AST_VAR
      ∧ run 1 { vars := [("x", .str "kept")], stdout := [] } (.expr [])
        = .ok ({ node := none,
                 err := some { format := "Non-quoted expression can't be empty", args := [] } },
               { vars := [("x", .str "kept")], stdout := [] })
      ∧ run 1 { vars := [("x", .str "kept")], stdout := [] }
          (.expr [.num (Double.ofNat 1), .num (Double.ofNat 2), .num (Double.ofNat 3)])
        = .ok ({ node := none,
                 err := some { format := "Cannot call non-variable (type %s)",
                               args := [FmtArg.typetostr NodeType.AST_NUM] } },
               { vars := [("x", .str "kept")], stdout := [] }) :=
  ⟨by decide,
   C1_run_expr_empty_or_bad_head 0 { vars := [("x", .str "kept")], stdout := [] }
     (.num (Double.ofNat 1)) [.num (Double.ofNat 2), .num (Double.ofNat 3)] (by decide)⟩

/-- C2 (the code at the failing input): in every environment `env` and for
every name that is neither a registry entry nor bound in `env`, the call
dereferences the `NULL` returned by `varmap_getItem` (`funcCall`, line 133)
instead of returning the error "no function '%s' found"; so does
`(frobnicate 1)` in the empty environment.  When the name is bound to a node
that is not a Function the error is returned. -/
theorem C2_call_of_unbound_name_derefs_null (fuel : Nat) :
    run (fuel + 1) in_make (.expr [.var "frobnicate", .num (Double.ofNat 1)])
        = .error Fault.nullDeref
      ∧ (∀ (env : InterEnv) (name : String) (args : List Node),
          (getBuiltin name = none ∧ varmap_getItem env.vars name = none) →
            run (fuel + 1) env (.expr (.var name :: args)) = .error Fault.nullDeref)
      ∧ (∀ (env : InterEnv) (name : String) (args : List Node) (val : Node),
          (getBuiltin name = none ∧ varmap_getItem env.vars name = some val
              ∧ val.type ≠ NodeType.AST_FUN) →
            run (fuel + 1) env (.expr (.var name :: args))
              = .ok ({ node := none,
                       err := some { format := "no function '%s' found",
                                     args := [FmtArg.s name] } }, env)) := by
  refine ⟨rfl, ?_, ?_⟩
  · rintro env name args ⟨hb, hv⟩
    rw [run_call]
    simp only [funcCall, hb, hv]
  · rintro env name args val ⟨hb, hv, ht⟩
    rw [run_call]
    cases val with
    | function _ => exact absurd rfl ht
    | num _ => simp only [funcCall, hb, hv]; rfl
    | str _ => simp only [funcCall, hb, hv]; rfl
    | var _ => simp only [funcCall, hb, hv]; rfl
    | quoted _ => simp only [funcCall, hb, hv]; rfl
    | expr _ => simp only [funcCall, hb, hv]; rfl
    | comment => simp only [funcCall, hb, hv]; rfl

/-- C3: the registry holds the fourteen names print, +, -, /, *, eq, neq,
lt, gt, do, if, set, let, streq; for each entry `b`, `getBuiltin b.name` is
`b` itself, and `run` on an expression with head `b.name` is the entry's
native callable applied to the environment, the head name and the remaining
children as they stand, whatever the environment binds; and whenever
`getBuiltin` finds an entry, it is an entry of the table whose name is the
name looked up. -/
theorem C3_builtins_take_precedence (fuel : Nat) (env : InterEnv) (b : Builtin)
    (args : List Node) (hb : b ∈ staticbuiltins) :
    staticbuiltins.map Builtin.name
        = ["print", "+", "-", "/", "*", "eq", "neq", "lt", "gt", "do", "if", "set", "let",
           "streq"]
      ∧ getBuiltin b.name = some b
      ∧ run (fuel + 1) env (.expr (.var b.name :: args))
        = callNative (run fuel) (getNumVal (run fuel) fuel) b.fn env b.name args
      ∧ (∀ (name : String) (found : Builtin),
          getBuiltin name = some found → found.name = name ∧ found ∈ staticbuiltins) := by
  refine ⟨rfl, getBuiltin_of_mem b hb, run_builtin fuel env b args (getBuiltin_of_mem b hb), ?_⟩
  intro name found h
  exact getBuiltin_scan_some name _ found h

/-- C3 at `(if 0 1 2)` in an environment that binds `if` to a user-defined
Function: the builtin `builtin_if` is what runs. -/
theorem C3_builtins_take_precedence_witness :
    ({ name := "if", enabled := true, fn := BuiltinFn.builtin_if } : Builtin) ∈ staticbuiltins
      ∧ run 2 { vars := [("if", .function (.user [] (.str "shadow")))], stdout := [] }
          (.expr [.var "if", .num (Double.ofNat 0), .num (Double.ofNat 1),
                  .num (Double.ofNat 2)])
        = builtin_if (run 1)
            { vars := [("if", .function (.user [] (.str "shadow")))], stdout := [] } "if"
            [.num (Double.ofNat 0), .num (Double.ofNat 1), .num (Double.ofNat 2)] :=
  ⟨by decide,
   (C3_builtins_take_precedence 1
      { vars := [("if", .function (.user [] (.str "shadow")))], stdout := [] }
      { name := "if", enabled := true, fn := BuiltinFn.builtin_if }
      [.num (Double.ofNat 0), .num (Double.ofNat 1), .num (Double.ofNat 2)]
      (by decide)).2.2.1⟩

/-- C4: `run` on a Variable-reference returns the absent value without error
when the name is unbound, and the stored value without error when the name is
bound; the environment is returned unchanged in both cases. -/
theorem C4_run_var (fuel : Nat) (env : InterEnv) (name : String) :
    (varmap_getItem env.vars name = none →
        run (fuel + 1) env (.var name) = .ok ({ node := none, err := none }, env))
      ∧ (∀ v : Node, varmap_getItem env.vars name = some v →
        run (fuel + 1) env (.var name) = .ok ({ node := some v, err := none }, env)) := by
  constructor
  · intro h
    simp only [run, h, rr_null]
  · intro v h
    simp only [run, h, rr_node, node_copy]

/-- C4 at the names `y` (unbound) and `x` (bound to the string `"s"`). -/
theorem C4_run_var_witness :
    run 1 { vars := [("x", .str "s")], stdout := [] } (.var "y")
        = .ok ({ node := none, err := none }, { vars := [("x", .str "s")], stdout := [] })
      ∧ run 1 { vars := [("x", .str "s")], stdout := [] } (.var "x")
        = .ok ({ node := some (.str "s"), err := none },
               { vars := [("x", .str "s")], stdout := [] }) :=
  ⟨(C4_run_var 0 { vars := [("x", .str "s")], stdout := [] } "y").1 rfl,
   (C4_run_var 0 { vars := [("x", .str "s")], stdout := [] } "x").2 (.str "s") rfl⟩

theorem run_if (fuel : Nat) (env : InterEnv) (args : List Node) :
    run (fuel + 1) env (.expr (.var "if" :: args)) = builtin_if (run fuel) env "if" args :=
  run_builtin fuel env { name := "if", enabled := true, fn := .builtin_if } args rfl

theorem run_set (fuel : Nat) (env : InterEnv) (args : List Node) :
    run (fuel + 1) env (.expr (.var "set" :: args)) = builtin_set (run fuel) env "set" args :=
  run_builtin fuel env { name := "set", enabled := true, fn := .builtin_set } args rfl

theorem run_let (fuel : Nat) (env : InterEnv) (args : List Node) :
    run (fuel + 1) env (.expr (.var "let" :: args)) = builtin_let (run fuel) env "let" args :=
  run_builtin fuel env { name := "let", enabled := true, fn := .builtin_let } args rfl

/-- A double is true as a C condition exactly when it differs from zero in
the sense of the C operator `!=`. -/
theorem Double.truthy_eq_ne_zero (c : Double) : c.truthy = Double.ne c (Double.ofNat 0) := by
  have h0 : Double.ofNat 0 = Double.fin false 0 (-1074) := rfl
  rw [h0]
  cases c with
  | nan => rfl
  | inf s => rfl
  | fin s m e =>
    have hp : Double.pow2 (e - min e (-1074)) ≠ 0 := Nat.pos_iff_ne_zero.mp (Nat.pow_pos (by decide))
    cases s <;> cases m <;> simp [Double.truthy, Double.ne, Double.eq, Double.signed, hp]
      <;> omega

/-- C5: in an `if` call with 2 or 3 arguments whose condition evaluates
without error to the Number `c`, leaving the environment `env1`: when `c` is
true as a C condition (`c != 0`) the call is the evaluation of the second
argument in `env1` (same result, same final environment; a third argument
plays no part); when `c` is zero and there is a third argument the call is
the evaluation of the third argument in `env1` (the second plays no part);
when `c` is zero and there is no third argument the call returns the absent
value without error, in `env1`. -/
theorem C5_if_selects_branch (fuel : Nat) (env env1 : InterEnv) (cond a1 : Node) (c : Double)
    (hcond : run fuel env cond = .ok ({ node := some (.num c), err := none }, env1)) :
    c.truthy = Double.ne c (Double.ofNat 0)
      ∧ (c.truthy = true → ∀ rest : List Node, rest.length ≤ 1 →
          run (fuel + 1) env (.expr (.var "if" :: cond :: a1 :: rest)) = run fuel env1 a1)
      ∧ (c.truthy = false → ∀ a2 : Node,
          run (fuel + 1) env (.expr [.var "if", cond, a1, a2]) = run fuel env1 a2)
      ∧ (c.truthy = false →
          run (fuel + 1) env (.expr [.var "if", cond, a1])
            = .ok ({ node := none, err := none }, env1)) := by
  refine ⟨Double.truthy_eq_ne_zero c, ?_, ?_, ?_⟩
  · intro hc rest hlen
    have h3 : ¬ ¬ (cond :: a1 :: rest).length ≤ 3 := by
      simp only [List.length_cons]; omega
    rw [run_if]
    simp only [builtin_if, h3, hcond, hc, if_true, if_false]
  · intro hc a2
    rw [run_if]
    simp [builtin_if, hcond, hc]
  · intro hc
    rw [run_if]
    simp [builtin_if, hcond, hc, rr_null]

/-- C5 at `(if 0 1 2)`, `(if 1 1 2)` and `(if 0 1)` in the empty
environment: the results are 2, 1 and the absent value. -/
theorem C5_if_selects_branch_witness :
    run 2 in_make (.expr [.var "if", .num (Double.ofNat 0), .num (Double.ofNat 1),
        .num (Double.ofNat 2)])
        = .ok ({ node := some (.num (Double.ofNat 2)), err := none }, in_make)
      ∧ run 2 in_make (.expr [.var "if", .num (Double.ofNat 1), .num (Double.ofNat 1),
          .num (Double.ofNat 2)])
        = .ok ({ node := some (.num (Double.ofNat 1)), err := none }, in_make)
      ∧ run 2 in_make (.expr [.var "if", .num (Double.ofNat 0), .num (Double.ofNat 1)])
        = .ok ({ node := none, err := none }, in_make) :=
  ⟨((C5_if_selects_branch 1 in_make in_make (.num (Double.ofNat 0)) (.num (Double.ofNat 1))
        (Double.ofNat 0) rfl).2.2.1 rfl (.num (Double.ofNat 2))).trans rfl,
   ((C5_if_selects_branch 1 in_make in_make (.num (Double.ofNat 1)) (.num (Double.ofNat 1))
        (Double.ofNat 1) rfl).2.1 rfl [.num (Double.ofNat 2)] (by decide)).trans rfl,
   (C5_if_selects_branch 1 in_make in_make (.num (Double.ofNat 0)) (.num (Double.ofNat 1))
        (Double.ofNat 0) rfl).2.2.2 rfl⟩

/-- C6 (the code at the failing input): an `if` call whose condition
evaluates without error to the absent value dereferences the `NULL` node
(`builtin_if`, line 135) instead of returning the error "expected cond to
have type AST_NUM"; so does `(if x 1)` with `x` unbound.  When the condition
evaluates to a node that is not a Number, the error is returned in the
environment left by the condition, whatever the branches are. -/
theorem C6_if_on_absent_condition_derefs_null (fuel : Nat) :
    run (fuel + 2) in_make (.expr [.var "if", .var "x", .num (Double.ofNat 1)])
        = .error Fault.nullDeref
      ∧ (∀ (env env1 : InterEnv) (cond a1 : Node) (rest : List Node),
          (rest.length ≤ 1 ∧ run fuel env cond = .ok ({ node := none, err := none }, env1)) →
            run (fuel + 1) env (.expr (.var "if" :: cond :: a1 :: rest))
              = .error Fault.nullDeref)
      ∧ (∀ (env env1 : InterEnv) (cond a1 : Node) (rest : List Node) (val : Node),
          (rest.length ≤ 1 ∧ val.type ≠ NodeType.AST_NUM
              ∧ run fuel env cond = .ok ({ node := some val, err := none }, env1)) →
            run (fuel + 1) env (.expr (.var "if" :: cond :: a1 :: rest))
              = .ok ({ node := none,
                       err := some { format := "expected cond to have type AST_NUM",
                                     args := [] } }, env1)) := by
  refine ⟨rfl, ?_, ?_⟩
  · rintro env env1 cond a1 rest ⟨hlen, hcond⟩
    have h3 : ¬ ¬ (cond :: a1 :: rest).length ≤ 3 := by
      simp only [List.length_cons]; omega
    rw [run_if]
    simp only [builtin_if, h3, hcond, if_false]
  · rintro env env1 cond a1 rest val ⟨hlen, hty, hcond⟩
    have h3 : ¬ ¬ (cond :: a1 :: rest).length ≤ 3 := by
      simp only [List.length_cons]; omega
    rw [run_if]
    cases val with
    | num _ => exact absurd rfl hty
    | str _ => simp only [builtin_if, h3, hcond, if_false]; rfl
    | var _ => simp only [builtin_if, h3, hcond, if_false]; rfl
    | quoted _ => simp only [builtin_if, h3, hcond, if_false]; rfl
    | expr _ => simp only [builtin_if, h3, hcond, if_false]; rfl
    | comment => simp only [builtin_if, h3, hcond, if_false]; rfl
    | function _ => simp only [builtin_if, h3, hcond, if_false]; rfl

/-- C7: in a `set` call with exactly 2 arguments whose first argument is the
Variable-reference `x` and whose second argument evaluates without error to
the result `rr`, leaving the environment `env1`: the call returns the absent
value without error; afterwards looking `x` up gives the node of `rr` (so `x`
is unbound when `rr` is absent, and bound to the result otherwise, whatever
`x` held before), every other name reads as in `env1`, and nothing is
written to standard output. -/
theorem C7_set_binds_or_removes (fuel : Nat) (env env1 : InterEnv) (x : String) (a1 : Node)
    (rr : RunResult) (hrun : run fuel env a1 = .ok (rr, env1)) (herr : rr.err = none) :
    ∃ env2 : InterEnv,
      run (fuel + 1) env (.expr [.var "set", .var x, a1])
          = .ok ({ node := none, err := none }, env2)
        ∧ varmap_getItem env2.vars x = rr.node
        ∧ (∀ y : String, y ≠ x → varmap_getItem env2.vars y = varmap_getItem env1.vars y)
        ∧ env2.stdout = env1.stdout := by
  refine ⟨{ env1 with vars := varmap_setItem env1.vars x rr.node }, ?_,
    varmap_getItem_setItem_self _ _ _,
    fun y hy => varmap_getItem_setItem_other _ _ _ _ hy, rfl⟩
  rw [run_set]
  cases hn : rr.node with
  | none => simp only [builtin_set, hrun, herr, hn, rr_null, varmap_setItem]
  | some n => simp only [builtin_set, hrun, herr, hn, rr_null]

/-- C7 at `(set x (if 0 1))` with `x` bound to 7 and `y` bound to the string
`"s"`: the call returns the absent value and leaves only `y` bound. -/
theorem C7_set_binds_or_removes_witness :
    ∃ env2 : InterEnv,
      run 3 { vars := [("x", .num (Double.ofNat 7)), ("y", .str "s")], stdout := [] }
          (.expr [.var "set", .var "x",
            .expr [.var "if", .num (Double.ofNat 0), .num (Double.ofNat 1)]])
          = .ok ({ node := none, err := none }, env2)
        ∧ varmap_getItem env2.vars "x" = none
        ∧ (∀ y : String, y ≠ "x" → varmap_getItem env2.vars y
            = varmap_getItem [("x", .num (Double.ofNat 7)), ("y", .str "s")] y)
        ∧ env2.stdout = [] :=
  C7_set_binds_or_removes 2
    { vars := [("x", .num (Double.ofNat 7)), ("y", .str "s")], stdout := [] }
    { vars := [("x", .num (Double.ofNat 7)), ("y", .str "s")], stdout := [] } "x"
    (.expr [.var "if", .num (Double.ofNat 0), .num (Double.ofNat 1)])
    { node := none, err := none } rfl rfl

/-- C8: a `set` call with exactly 2 arguments whose first argument is not a
Variable-reference returns the error "expected argument %d to be of type %s"
(with 0 and AST_VAR) and no node, and returns the environment unchanged.
This holds for `builtin_set` with any evaluator in place of `run`, and with
depth budget 1: the second argument is not evaluated. -/
theorem C8_set_rejects_non_variable (fuel : Nat) (env : InterEnv) (a0 a1 : Node)
    (h0 : a0.type ≠ NodeType.AST_VAR) :
    run (fuel + 1) env (.expr [.var "set", a0, a1])
        = .ok ({ node := none,
                 err := some { format := "expected argument %d to be of type %s",
                               args := [FmtArg.d 0, FmtArg.s "AST_VAR"] } }, env)
      ∧ (∀ (r : Runner) (name : String),
          builtin_set r env name [a0, a1]
            = .ok ({ node := none,
                     err := some { format := "expected argument %d to be of type %s",
                                   args := [FmtArg.d 0, FmtArg.s "AST_VAR"] } }, env)) := by
  have key : ∀ (r : Runner) (name : String),
      builtin_set r env name [a0, a1]
        = .ok ({ node := none,
                 err := some { format := "expected argument %d to be of type %s",
                               args := [FmtArg.d 0, FmtArg.s "AST_VAR"] } }, env) := by
    intro r name
    cases a0 with
    | var _ => exact absurd rfl h0
    | num _ => rfl
    | str _ => rfl
    | quoted _ => rfl
    | expr _ => rfl
    | comment => rfl
    | function _ => rfl
  exact ⟨(run_set fuel env [a0, a1]).trans (key _ _), key⟩

/-- C8 at `(set "x" (set y 1))` in the empty environment, with depth
budget 1: the error is returned and `y` is not bound. -/
theorem C8_set_rejects_non_variable_witness :
    (Node.str "x").type ≠ NodeType.AST_VAR
      ∧ run 1 in_make (.expr [.var "set", .str "x",
          .expr [.var "set", .var "y", .num (Double.ofNat 1)]])
        = .ok ({ node := none,
                 err := some { format := "expected argument %d to be of type %s",
                               args := [FmtArg.d 0, FmtArg.s "AST_VAR"] } }, in_make) :=
  ⟨by decide,
   (C8_set_rejects_non_variable 0 in_make (.str "x")
      (.expr [.var "set", .var "y", .num (Double.ofNat 1)]) (by decide)).1⟩

theorem builtin_let_loop_of_runsInOrder (r : Runner) (x : String) (bs : List Node) :
    ∀ (b : Node) (env : InterEnv) (prev : Option RunResult) (res : RunResult)
      (envn : InterEnv), RunsInOrder r env b bs res envn →
      builtin_let.loop r (.var x) (b :: bs) env prev
        = .ok (res, { envn with vars := varmap_removeItem envn.vars x }) := by
  induction bs with
  | nil =>
    intro b env prev res envn h
    obtain ⟨hb, he⟩ := h
    simp only [builtin_let.loop, hb, he, return_rr]
  | cons b' bs ih =>
    intro b env prev res envn h
    obtain ⟨r1, env1, hb, he, hrest⟩ := h
    have := ih b' env1 (some r1) res envn hrest
    simp only [builtin_let.loop, hb, he] at this ⊢
    exact this

theorem builtin_set_ok (r : Runner) (env env1 : InterEnv) (name x : String) (a1 : Node)
    (rr : RunResult) (hrun : r env a1 = .ok (rr, env1)) (herr : rr.err = none) :
    builtin_set r env name [.var x, a1]
      = .ok (rr_null, { env1 with vars := varmap_setItem env1.vars x rr.node }) := by
  cases hn : rr.node with
  | none => simp only [builtin_set, hrun, herr, hn, varmap_setItem]
  | some n => simp only [builtin_set, hrun, herr, hn]

/-- C9: when the value expression `v` evaluates without error to `rv`
(leaving `env1`) and the body `b :: bs` then runs in order without error from
the environment in which `x` holds the node of `rv`, ending with result `r`
in environment `envn`: at the start of the body `x` reads as the node of
`rv`; `(let x v b bs..)` returns `r`, the result of the last body argument;
and the environment it leaves is `envn` without `x`, in which `x` is unbound,
whatever `x` held before the call.  (By `run_mono` a depth budget that is
enough for each of the evaluations separately is enough for all of them.) -/
theorem C9_let_binds_runs_body_unbinds (fuel : Nat) (env env1 envn : InterEnv) (x : String)
    (v b : Node) (bs : List Node) (rv r : RunResult)
    (hv : run fuel env v = .ok (rv, env1)) (hverr : rv.err = none)
    (hbody : RunsInOrder (run fuel)
      { env1 with vars := varmap_setItem env1.vars x rv.node } b bs r envn) :
    varmap_getItem (varmap_setItem env1.vars x rv.node) x = rv.node
      ∧ run (fuel + 1) env (.expr (.var "let" :: .var x :: v :: b :: bs))
        = .ok (r, { envn with vars := varmap_removeItem envn.vars x })
      ∧ varmap_getItem (varmap_removeItem envn.vars x) x = none := by
  refine ⟨varmap_getItem_setItem_self _ _ _, ?_, varmap_getItem_removeItem_self _ _⟩
  rw [run_let]
  simp only [builtin_let, builtin_set_ok (run fuel) env env1 "set" x v rv hv hverr]
  exact builtin_let_loop_of_runsInOrder (run fuel) x bs b _ none r envn hbody

/-- C9 at `(let x 5 (+ x 1))` in an environment where `x` holds the string
`"old"` and `y` the string `"s"`: the call returns 6 and leaves only `y`
bound. -/
theorem C9_let_binds_runs_body_unbinds_witness :
    run 3 { vars := [("x", .str "old"), ("y", .str "s")], stdout := [] }
        (.expr [.var "let", .var "x", .num (Double.ofNat 5),
          .expr [.var "+", .var "x", .num (Double.ofNat 1)]])
      = .ok ({ node := some (.num (Double.ofNat 6)), err := none },
             { vars := [("y", .str "s")], stdout := [] }) :=
  (C9_let_binds_runs_body_unbinds 2
    { vars := [("x", .str "old"), ("y", .str "s")], stdout := [] }
    { vars := [("x", .str "old"), ("y", .str "s")], stdout := [] }
    { vars := [("x", .num (Double.ofNat 5)), ("y", .str "s")], stdout := [] }
    "x" (.num (Double.ofNat 5)) (.expr [.var "+", .var "x", .num (Double.ofNat 1)]) []
    { node := some (.num (Double.ofNat 5)), err := none }
    { node := some (.num (Double.ofNat 6)), err := none }
    rfl rfl ⟨rfl, rfl⟩).2.1

/-- C10 (the code at the failing input): when a body argument of `let`
fails, `builtin_let` returns from inside its loop (line 179) and the call
`varmap_removeItem` of line 183 is not reached: the call returns the failed
result together with the environment exactly as the failing argument left
it.  After `(let x 5 (1))` in the empty environment, `x` is still bound
to 5. -/
theorem C10_let_keeps_binding_when_body_fails (fuel : Nat) :
    run (fuel + 2) in_make
        (.expr [.var "let", .var "x", .num (Double.ofNat 5), .expr [.num (Double.ofNat 1)]])
        = .ok ({ node := none,
                 err := some { format := "Cannot call non-variable (type %s)",
                               args := [FmtArg.typetostr NodeType.AST_NUM] } },
               { vars := [("x", .num (Double.ofNat 5))], stdout := [] })
      ∧ varmap_getItem [("x", .num (Double.ofNat 5))] "x" = some (.num (Double.ofNat 5))
      ∧ (∀ (env env1 env2 : InterEnv) (x : String) (v b : Node) (bs : List Node)
            (rv rb : RunResult) (e : ErrText),
          (run fuel env v = .ok (rv, env1) ∧ rv.err = none
              ∧ run fuel { env1 with vars := varmap_setItem env1.vars x rv.node } b
                  = .ok (rb, env2)
              ∧ rb.err = some e) →
            run (fuel + 1) env (.expr (.var "let" :: .var x :: v :: b :: bs))
              = .ok (rb, env2)) := by
  refine ⟨rfl, rfl, ?_⟩
  rintro env env1 env2 x v b bs rv rb e ⟨hv, hverr, hb, hberr⟩
  rw [run_let]
  simp only [builtin_let, builtin_set_ok (run fuel) env env1 "set" x v rv hv hverr,
    builtin_let.loop, hb, hberr]

/-- C11 (the code at the failing input): when the first argument of a `let`
call with at least 3 arguments is not a Variable-reference, the error
"expected argument %d to be of type %s" that `builtin_set` returns is dropped
(`builtin_let`, line 173) and the body arguments are evaluated all the same,
in the unchanged environment.  `(let 1 5 (set y 2) (2))` in the empty
environment binds `y` to 2 and returns the error of `(2)`, "Cannot call
non-variable"; `(let 1 5 7)`, whose body succeeds, goes on to read
`args[0]->var.name` of the Number `1` (line 183). -/
theorem C11_let_drops_type_error_of_set (fuel : Nat) :
    run (fuel + 3) in_make
        (.expr [.var "let", .num (Double.ofNat 1), .num (Double.ofNat 5),
          .expr [.var "set", .var "y", .num (Double.ofNat 2)],
          .expr [.num (Double.ofNat 2)]])
        = .ok ({ node := none,
                 err := some { format := "Cannot call non-variable (type %s)",
                               args := [FmtArg.typetostr NodeType.AST_NUM] } },
               { vars := [("y", .num (Double.ofNat 2))], stdout := [] })
      ∧ run (fuel + 2) in_make
          (.expr [.var "let", .num (Double.ofNat 1), .num (Double.ofNat 5),
            .num (Double.ofNat 7)])
        = .error Fault.wrongUnionMember
      ∧ (∀ (env : InterEnv) (a0 a1 a2 : Node) (rest : List Node),
          a0.type ≠ NodeType.AST_VAR →
            run (fuel + 1) env (.expr (.var "let" :: a0 :: a1 :: a2 :: rest))
              = builtin_let.loop (run fuel) a0 (a2 :: rest) env none) := by
  refine ⟨rfl, rfl, ?_⟩
  intro env a0 a1 a2 rest h0
  rw [run_let]
  cases a0 with
  | var _ => exact absurd rfl h0
  | num _ => rfl
  | str _ => rfl
  | quoted _ => rfl
  | expr _ => rfl
  | comment => rfl
  | function _ => rfl

theorem runFunction_cleanup_vars (ps : List String) :
    ∀ m : VarMap, ∃ m' : VarMap,
      runFunction.cleanup (ps.map Node.var) m = .ok m'
        ∧ (∀ p : String, p ∈ ps → varmap_getItem m' p = none)
        ∧ (∀ q : String, varmap_getItem m q = none → varmap_getItem m' q = none) := by
  induction ps with
  | nil =>
    intro m
    exact ⟨m, rfl, fun p hp => absurd hp (List.not_mem_nil p), fun q hq => hq⟩
  | cons x ps ih =>
    intro m
    obtain ⟨m', hm', hps, hkeep⟩ := ih (varmap_removeItem m x)
    refine ⟨m', ?_, ?_, ?_⟩
    · simp only [List.map_cons, runFunction.cleanup, hm']
    · intro p hp
      rcases List.mem_cons.mp hp with h | h
      · subst h
        exact hkeep p (varmap_getItem_removeItem_self m p)
      · exact hps p h
    · intro q hq
      apply hkeep
      by_cases hqx : q = x
      · subst hqx
        exact varmap_getItem_removeItem_self m q
      · rw [varmap_getItem_removeItem_other m x q hqx]
        exact hq

theorem runFunction_exit_vars (ps : List String) (rr : Option RunResult) (env : InterEnv) :
    ∃ env' : InterEnv,
      runFunction.exit (ps.map Node.var) rr env = .ok (rr, env')
        ∧ (∀ p : String, p ∈ ps → varmap_getItem env'.vars p = none)
        ∧ env'.stdout = env.stdout := by
  obtain ⟨m', hm', hps, _⟩ := runFunction_cleanup_vars ps env.vars
  exact ⟨{ env with vars := m' }, by simp only [runFunction.exit, hm'], hps, rfl⟩

/-- C12: let `name` be bound to a user-defined Function with parameter names
`params`.  A call of it is the code of lines 101-120 (argument loop, body,
cleanup loop) followed by the return statement of lines 122-123.  On every
path on which that return statement is reached, every parameter is unbound
in the environment at that point, also a parameter that was bound before the
call: this covers the path of a failed argument (`goto exit`, after which
the return statement finds `rr` uninitialised), and the path on which the
body has returned its result `rr`, a value, the absent value or an error, in
which case the call returns `rr` in that environment.  In particular,
whenever the call returns a result, every parameter is unbound in the
environment it leaves. -/
theorem C12_user_call_unbinds_parameters (fuel : Nat) (env : InterEnv) (name : String)
    (params : List String) (body : Node) (args : List Node)
    (hname : getBuiltin name = none)
    (hfn : varmap_getItem env.vars name
      = some (.function (.user (params.map Node.var) body))) :
    run (fuel + 1) env (.expr (.var name :: args))
        = (match runFunction.toReturn (run fuel) (params.map Node.var) body args env with
            | .error f => .error f
            | .ok (rr, env') => runFunction.returnCopy rr env')
      ∧ (∀ (rr : Option RunResult) (env' : InterEnv),
          runFunction.toReturn (run fuel) (params.map Node.var) body args env = .ok (rr, env') →
          ∀ p : String, p ∈ params → varmap_getItem env'.vars p = none)
      ∧ (∀ env1 : InterEnv,
          runFunction.loop (run fuel) (params.map Node.var) args env = .ok (true, env1) →
          ∃ env' : InterEnv,
            runFunction.toReturn (run fuel) (params.map Node.var) body args env
                = .ok (none, env')
              ∧ ∀ p : String, p ∈ params → varmap_getItem env'.vars p = none)
      ∧ (∀ (env1 env2 : InterEnv) (rr : RunResult),
          runFunction.loop (run fuel) (params.map Node.var) args env = .ok (false, env1) →
          run fuel env1 body = .ok (rr, env2) →
          ∃ env' : InterEnv,
            runFunction.toReturn (run fuel) (params.map Node.var) body args env
                = .ok (some rr, env')
              ∧ run (fuel + 1) env (.expr (.var name :: args)) = .ok (rr, env')
              ∧ ∀ p : String, p ∈ params → varmap_getItem env'.vars p = none)
      ∧ (∀ (rr : RunResult) (env' : InterEnv),
          run (fuel + 1) env (.expr (.var name :: args)) = .ok (rr, env') →
          ∀ p : String, p ∈ params → varmap_getItem env'.vars p = none) := by
  have hcall : run (fuel + 1) env (.expr (.var name :: args))
      = (match runFunction.toReturn (run fuel) (params.map Node.var) body args env with
          | .error f => .error f
          | .ok (rr, env') => runFunction.returnCopy rr env') := by
    rw [run_call]
    simp only [funcCall, hname, hfn, runFunction]
  have hreach : ∀ (rr : Option RunResult) (env' : InterEnv),
      runFunction.toReturn (run fuel) (params.map Node.var) body args env = .ok (rr, env') →
      ∀ p : String, p ∈ params → varmap_getItem env'.vars p = none := by
    intro rr env' h p hp
    simp only [runFunction.toReturn] at h
    cases hl : runFunction.loop (run fuel) (params.map Node.var) args env with
    | error f => simp [hl] at h
    | ok q =>
      obtain ⟨jumped, env1⟩ := q
      cases jumped with
      | true =>
        obtain ⟨e', he', hps, _⟩ := runFunction_exit_vars params none env1
        simp only [hl, he', Except.ok.injEq, Prod.mk.injEq] at h
        obtain ⟨_, henv⟩ := h
        subst henv
        exact hps p hp
      | false =>
        simp only [hl] at h
        cases hb : run fuel env1 body with
        | error f => simp [hb] at h
        | ok q2 =>
          obtain ⟨rr2, env2⟩ := q2
          obtain ⟨e', he', hps, _⟩ := runFunction_exit_vars params (some rr2) env2
          simp only [hb, he', Except.ok.injEq, Prod.mk.injEq] at h
          obtain ⟨_, henv⟩ := h
          subst henv
          exact hps p hp
  refine ⟨hcall, hreach, ?_, ?_, ?_⟩
  · intro env1 hl
    obtain ⟨e', he', hps, _⟩ := runFunction_exit_vars params none env1
    exact ⟨e', by simp only [runFunction.toReturn, hl, he'], hps⟩
  · intro env1 env2 rr hl hb
    obtain ⟨e', he', hps, _⟩ := runFunction_exit_vars params (some rr) env2
    have ht : runFunction.toReturn (run fuel) (params.map Node.var) body args env
        = .ok (some rr, e') := by
      simp only [runFunction.toReturn, hl, hb, he']
    refine ⟨e', ht, ?_, hps⟩
    rw [hcall, ht]
    rfl
  · intro rr env' hret p hp
    rw [hcall] at hret
    cases ht : runFunction.toReturn (run fuel) (params.map Node.var) body args env with
    | error f => simp [ht] at hret
    | ok q =>
      obtain ⟨rr0, env0⟩ := q
      simp only [ht] at hret
      cases rr0 with
      | none => simp [runFunction.returnCopy] at hret
      | some rr1 =>
        simp only [runFunction.returnCopy, Except.ok.injEq, Prod.mk.injEq] at hret
        obtain ⟨_, henv⟩ := hret
        subst henv
        exact hreach (some rr1) env0 ht p hp

/-- C12 in an environment where `a` holds the string `"old"`, `f` is the
function of `a` with body `(+ a 1)` and `g` the function of `a` with the
failing body `(1)`.  `(f 5)` returns 6 and `(g 5)` the error of `(1)`; in
`(f (1))` the argument fails and the return statement is reached with `rr`
uninitialised.  In all three the environment then holds the functions only:
`a` is unbound. -/
theorem C12_user_call_unbinds_parameters_witness :
    (run 3 { vars := [("f", .function (.user [.var "a"]
              (.expr [.var "+", .var "a", .num (Double.ofNat 1)]))),
            ("a", .str "old")], stdout := [] }
        (.expr [.var "f", .num (Double.ofNat 5)])
      = .ok ({ node := some (.num (Double.ofNat 6)), err := none },
          { vars := [("f", .function (.user [.var "a"]
              (.expr [.var "+", .var "a", .num (Double.ofNat 1)])))], stdout := [] })
      ∧ varmap_getItem [("f", .function (.user [.var "a"]
              (.expr [.var "+", .var "a", .num (Double.ofNat 1)])))] "a" = none)
    ∧ (run 3 { vars := [("g", .function (.user [.var "a"]
              (.expr [.num (Double.ofNat 1)]))), ("a", .str "old")], stdout := [] }
        (.expr [.var "g", .num (Double.ofNat 5)])
      = .ok ({ node := none,
               err := some { format := "Cannot call non-variable (type %s)",
                             args := [FmtArg.typetostr NodeType.AST_NUM] } },
          { vars := [("g", .function (.user [.var "a"]
              (.expr [.num (Double.ofNat 1)])))], stdout := [] })
      ∧ varmap_getItem [("g", .function (.user [.var "a"]
              (.expr [.num (Double.ofNat 1)])))] "a" = none)
    ∧ (runFunction.toReturn (run 2) [.var "a"]
          (.expr [.var "+", .var "a", .num (Double.ofNat 1)])
          [.expr [.num (Double.ofNat 1)]]
          { vars := [("f", .function (.user [.var "a"]
              (.expr [.var "+", .var "a", .num (Double.ofNat 1)]))),
            ("a", .str "old")], stdout := [] }
      = .ok (none,
          { vars := [("f", .function (.user [.var "a"]
              (.expr [.var "+", .var "a", .num (Double.ofNat 1)])))], stdout := [] })
      ∧ varmap_getItem [("f", .function (.user [.var "a"]
              (.expr [.var "+", .var "a", .num (Double.ofNat 1)])))] "a" = none) :=
  ⟨⟨rfl, (C12_user_call_unbinds_parameters 2
      { vars := [("f", .function (.user [.var "a"]
          (.expr [.var "+", .var "a", .num (Double.ofNat 1)]))), ("a", .str "old")],
        stdout := [] }
      "f" ["a"] (.expr [.var "+", .var "a", .num (Double.ofNat 1)])
      [.num (Double.ofNat 5)] rfl rfl).2.2.2.2 _ _ rfl "a" (List.mem_singleton.mpr rfl)⟩,
   ⟨rfl, (C12_user_call_unbinds_parameters 2
      { vars := [("g", .function (.user [.var "a"] (.expr [.num (Double.ofNat 1)]))),
          ("a", .str "old")], stdout := [] }
      "g" ["a"] (.expr [.num (Double.ofNat 1)])
      [.num (Double.ofNat 5)] rfl rfl).2.2.2.2 _ _ rfl "a" (List.mem_singleton.mpr rfl)⟩,
   ⟨rfl, (C12_user_call_unbinds_parameters 2
      { vars := [("f", .function (.user [.var "a"]
          (.expr [.var "+", .var "a", .num (Double.ofNat 1)]))), ("a", .str "old")],
        stdout := [] }
      "f" ["a"] (.expr [.var "+", .var "a", .num (Double.ofNat 1)])
      [.expr [.num (Double.ofNat 1)]] rfl rfl).2.1 none
      { vars := [("f", .function (.user [.var "a"]
          (.expr [.var "+", .var "a", .num (Double.ofNat 1)])))], stdout := [] }
      rfl "a" (List.mem_singleton.mpr rfl)⟩⟩

/-- C13 (the code at the failing input): when an argument of a user-defined
Function call fails, `runFunction` leaves its loop by `goto exit` (line 107),
which jumps over the initialisation of the `RunResult rr` of line 112; the
`rr` of the failed argument is local to the loop body, so after the cleanup
the function reads and returns the uninitialised `rr` (lines 122-123)
instead of the error.  So does `(f (1))` where `f` is the function of `a`
with body `a`. -/
theorem C13_user_call_returns_uninitialised_result (fuel : Nat) :
    run (fuel + 2) { vars := [("f", .function (.user [.var "a"] (.var "a")))], stdout := [] }
        (.expr [.var "f", .expr [.num (Double.ofNat 1)]])
        = .error Fault.uninitRead
      ∧ (∀ (env env1 : InterEnv) (name : String) (params : List String) (body : Node)
            (args : List Node),
          (getBuiltin name = none
            ∧ varmap_getItem env.vars name
                = some (.function (.user (params.map Node.var) body))
            ∧ runFunction.loop (run fuel) (params.map Node.var) args env = .ok (true, env1)) →
          run (fuel + 1) env (.expr (.var name :: args)) = .error Fault.uninitRead)
      ∧ (∀ (env env1 : InterEnv) (p : String) (ps : List Node) (arg : Node)
            (args : List Node) (rr : RunResult) (e : ErrText),
          (run fuel env arg = .ok (rr, env1) ∧ rr.err = some e) →
          runFunction.loop (run fuel) (.var p :: ps) (arg :: args) env = .ok (true, env1)) := by
  refine ⟨rfl, ?_, ?_⟩
  · rintro env env1 name params body args ⟨hname, hfn, hl⟩
    obtain ⟨m', hm', _, _⟩ := runFunction_cleanup_vars params env1.vars
    rw [run_call]
    simp only [funcCall, hname, hfn, runFunction, runFunction.toReturn, hl, runFunction.exit,
      hm', runFunction.returnCopy]
  · rintro env env1 p ps arg args rr e ⟨hrun, herr⟩
    simp only [runFunction.loop, hrun, herr]

theorem run_arith (fuel : Nat) (env : InterEnv) (args : List Node) :
    run (fuel + 1) env (.expr (.var "+" :: args)) = builtin_arith (run fuel) env "+" args
      ∧ run (fuel + 1) env (.expr (.var "-" :: args)) = builtin_arith (run fuel) env "-" args
      ∧ run (fuel + 1) env (.expr (.var "/" :: args)) = builtin_arith (run fuel) env "/" args
      ∧ run (fuel + 1) env (.expr (.var "*" :: args)) = builtin_arith (run fuel) env "*" args :=
  ⟨run_builtin fuel env { name := "+", enabled := true, fn := .builtin_arith } args rfl,
   run_builtin fuel env { name := "-", enabled := true, fn := .builtin_arith } args rfl,
   run_builtin fuel env { name := "/", enabled := true, fn := .builtin_arith } args rfl,
   run_builtin fuel env { name := "*", enabled := true, fn := .builtin_arith } args rfl⟩

/-- C14: when the two argument nodes of a call of `+`, `-`, `/` or `*`
evaluate without error to the Numbers `a` and `b` (the second in the
environment left by the first), the call returns without error the Number
`a + b`, `a - b`, `a / b` or `a * b` of C double arithmetic, chosen by the
symbol, in the environment left by the second argument.  No value of `b`
makes the division an error, and `1 / 0` is positive infinity. -/
theorem C14_arith_on_numbers (fuel : Nat) (env env1 env2 : InterEnv) (a0 a1 : Node)
    (a b : Double)
    (h0 : run fuel env a0 = .ok ({ node := some (.num a), err := none }, env1))
    (h1 : run fuel env1 a1 = .ok ({ node := some (.num b), err := none }, env2)) :
    run (fuel + 1) env (.expr [.var "+", a0, a1])
        = .ok ({ node := some (.num (Double.add a b)), err := none }, env2)
      ∧ run (fuel + 1) env (.expr [.var "-", a0, a1])
        = .ok ({ node := some (.num (Double.sub a b)), err := none }, env2)
      ∧ run (fuel + 1) env (.expr [.var "/", a0, a1])
        = .ok ({ node := some (.num (Double.div a b)), err := none }, env2)
      ∧ run (fuel + 1) env (.expr [.var "*", a0, a1])
        = .ok ({ node := some (.num (Double.mul a b)), err := none }, env2)
      ∧ Double.div (Double.ofNat 1) (Double.ofNat 0) = Double.inf false := by
  obtain ⟨hadd, hsub, hdiv, hmul⟩ := run_arith fuel env [a0, a1]
  refine ⟨?_, ?_, ?_, ?_, rfl⟩
  · rw [hadd]; simp only [builtin_arith, h0, h1]; rfl
  · rw [hsub]; simp only [builtin_arith, h0, h1]; rfl
  · rw [hdiv]; simp only [builtin_arith, h0, h1]; rfl
  · rw [hmul]; simp only [builtin_arith, h0, h1]; rfl

/-- C14 at `(/ 1 0)` and `(+ 5 1)` in the empty environment: the results are
positive infinity and 6. -/
theorem C14_arith_on_numbers_witness :
    run 2 in_make (.expr [.var "/", .num (Double.ofNat 1), .num (Double.ofNat 0)])
        = .ok ({ node := some (.num (Double.inf false)), err := none }, in_make)
      ∧ run 2 in_make (.expr [.var "+", .num (Double.ofNat 5), .num (Double.ofNat 1)])
        = .ok ({ node := some (.num (Double.ofNat 6)), err := none }, in_make) :=
  ⟨(C14_arith_on_numbers 1 in_make in_make in_make (.num (Double.ofNat 1))
      (.num (Double.ofNat 0)) (Double.ofNat 1) (Double.ofNat 0) rfl rfl).2.2.1,
   (C14_arith_on_numbers 1 in_make in_make in_make (.num (Double.ofNat 5))
      (.num (Double.ofNat 1)) (Double.ofNat 5) (Double.ofNat 1) rfl rfl).1⟩

/-- C15 (the code at the failing input): a call of `+`, `-`, `/` or `*`
whose first operand evaluates without error to the absent value, or whose
first operand is a Number and whose second evaluates to the absent value,
dereferences a `NULL` node (`builtin_arith`, lines 60-61) instead of
returning the error "both arguments should be a number"; so does `(+ x 1)`
with `x` unbound.  When the first operand evaluates to a node that is not a
Number, or the first to a Number and the second to a node that is not a
Number, the error is returned. -/
theorem C15_arith_on_absent_operand_derefs_null (fuel : Nat) :
    run (fuel + 2) in_make (.expr [.var "+", .var "x", .num (Double.ofNat 1)])
        = .error Fault.nullDeref
      ∧ run (fuel + 2) in_make (.expr [.var "+", .str "a", .num (Double.ofNat 1)])
        = .ok ({ node := none,
                 err := some { format := "both arguments should be a number", args := [] } },
               in_make)
      ∧ (∀ (r : Runner) (env env1 env2 : InterEnv) (name : String) (a0 a1 : Node)
            (rr2 : RunResult),
          (r env a0 = .ok ({ node := none, err := none }, env1)
            ∧ r env1 a1 = .ok (rr2, env2)) →
          builtin_arith r env name [a0, a1] = .error Fault.nullDeref)
      ∧ (∀ (r : Runner) (env env1 env2 : InterEnv) (name : String) (a0 a1 : Node)
            (a : Double),
          (r env a0 = .ok ({ node := some (.num a), err := none }, env1)
            ∧ r env1 a1 = .ok ({ node := none, err := none }, env2)) →
          builtin_arith r env name [a0, a1] = .error Fault.nullDeref)
      ∧ (∀ (r : Runner) (env env1 env2 : InterEnv) (name : String) (a0 a1 : Node)
            (v : Node) (rr2 : RunResult),
          (v.type ≠ NodeType.AST_NUM
            ∧ r env a0 = .ok ({ node := some v, err := none }, env1)
            ∧ r env1 a1 = .ok (rr2, env2)) →
          builtin_arith r env name [a0, a1]
            = .ok ({ node := none,
                     err := some { format := "both arguments should be a number",
                                   args := [] } }, env2))
      ∧ (∀ (r : Runner) (env env1 env2 : InterEnv) (name : String) (a0 a1 : Node)
            (a : Double) (v : Node),
          (v.type ≠ NodeType.AST_NUM
            ∧ r env a0 = .ok ({ node := some (.num a), err := none }, env1)
            ∧ r env1 a1 = .ok ({ node := some v, err := none }, env2)) →
          builtin_arith r env name [a0, a1]
            = .ok ({ node := none,
                     err := some { format := "both arguments should be a number",
                                   args := [] } }, env2)) := by
  refine ⟨rfl, rfl, ?_, ?_, ?_, ?_⟩
  · rintro r env env1 env2 name a0 a1 rr2 ⟨h0, h1⟩
    simp only [builtin_arith, h0, h1]
  · rintro r env env1 env2 name a0 a1 a ⟨h0, h1⟩
    simp only [builtin_arith, h0, h1]
  · rintro r env env1 env2 name a0 a1 v rr2 ⟨hv, h0, h1⟩
    cases v with
    | num _ => exact absurd rfl hv
    | str _ => simp only [builtin_arith, h0, h1]; rfl
    | var _ => simp only [builtin_arith, h0, h1]; rfl
    | quoted _ => simp only [builtin_arith, h0, h1]; rfl
    | expr _ => simp only [builtin_arith, h0, h1]; rfl
    | comment => simp only [builtin_arith, h0, h1]; rfl
    | function _ => simp only [builtin_arith, h0, h1]; rfl
  · rintro r env env1 env2 name a0 a1 a v ⟨hv, h0, h1⟩
    cases v with
    | num _ => exact absurd rfl hv
    | str _ => simp only [builtin_arith, h0, h1]; rfl
    | var _ => simp only [builtin_arith, h0, h1]; rfl
    | quoted _ => simp only [builtin_arith, h0, h1]; rfl
    | expr _ => simp only [builtin_arith, h0, h1]; rfl
    | comment => simp only [builtin_arith, h0, h1]; rfl
    | function _ => simp only [builtin_arith, h0, h1]; rfl

/-- C16 (the code at the failing inputs): `builtin_arith` and `builtin_streq`
never look at `rr1.err` or `rr2.err`, so a failed operand, whose node is
`NULL`, is dereferenced (lines 60 and 200); `getNumVal` asserts
`rr.err == NULL` (line 72), so a failed operand of a comparison stops the
process; `builtin_let` drops the result of `builtin_set` (line 173), so a
failed value expression is ignored and the body runs.  With the failing
argument `(1)`: `(+ (1) 2)` and `(streq (1) "a")` dereference `NULL`,
`(eq (1) 2)` fails the assertion, and `(let x (1) 5)` returns 5 without
error.  `(set x (1))`, `(if (1) 2)`, `(do (1) 2)` and `(print (1) 2)` return
the error of `(1)`. -/
theorem C16_arith_comp_streq_let_lose_the_error (fuel : Nat) :
    run (fuel + 2) in_make
        (.expr [.var "+", .expr [.num (Double.ofNat 1)], .num (Double.ofNat 2)])
        = .error Fault.nullDeref
      ∧ run (fuel + 2) in_make (.expr [.var "streq", .expr [.num (Double.ofNat 1)], .str "a"])
        = .error Fault.nullDeref
      ∧ run (fuel + 2) in_make
          (.expr [.var "eq", .expr [.num (Double.ofNat 1)], .num (Double.ofNat 2)])
        = .error Fault.assertFail
      ∧ run (fuel + 2) in_make
          (.expr [.var "let", .var "x", .expr [.num (Double.ofNat 1)], .num (Double.ofNat 5)])
        = .ok ({ node := some (.num (Double.ofNat 5)), err := none }, in_make)
      ∧ (∀ e : Node,
          e ∈ [Node.expr [.var "set", .var "x", .expr [.num (Double.ofNat 1)]],
               Node.expr [.var "if", .expr [.num (Double.ofNat 1)], .num (Double.ofNat 2)],
               Node.expr [.var "do", .expr [.num (Double.ofNat 1)], .num (Double.ofNat 2)],
               Node.expr [.var "print", .expr [.num (Double.ofNat 1)], .num (Double.ofNat 2)]] →
          run (fuel + 2) in_make e
            = .ok ({ node := none,
                     err := some { format := "Cannot call non-variable (type %s)",
                                   args := [FmtArg.typetostr NodeType.AST_NUM] } }, in_make))
      ∧ (∀ (r : Runner) (env env1 env2 : InterEnv) (name : String) (a0 a1 : Node)
            (e : ErrText) (rr2 : RunResult),
          (r env a0 = .ok ({ node := none, err := some e }, env1)
            ∧ r env1 a1 = .ok (rr2, env2)) →
          builtin_arith r env name [a0, a1] = .error Fault.nullDeref
            ∧ builtin_streq r env name [a0, a1] = .error Fault.nullDeref) := by
  refine ⟨rfl, rfl, rfl, rfl, ?_, ?_⟩
  · intro e he
    simp only [List.mem_cons, List.mem_singleton, List.not_mem_nil, or_false] at he
    rcases he with h | h | h | h <;> subst h <;> rfl
  · rintro r env env1 env2 name a0 a1 e rr2 ⟨h0, h1⟩
    constructor
    · simp only [builtin_arith, h0, h1]
    · simp only [builtin_streq, h0, h1]

theorem builtin_arith_arity (r : Runner) (env : InterEnv) (name : String) (args : List Node)
    (h : args.length ≠ 2) :
    builtin_arith r env name args = .ok (EXPECT_fail args.length "== 2", env) := by
  rcases args with _ | ⟨a0, _ | ⟨a1, _ | ⟨a2, rest⟩⟩⟩
  · rfl
  · rfl
  · exact absurd rfl h
  · rfl

theorem builtin_comp_arity (g : NumReader) (env : InterEnv) (name : String) (args : List Node)
    (h : args.length ≠ 2) :
    builtin_comp g env name args = .ok (EXPECT_fail args.length "== 2", env) := by
  rcases args with _ | ⟨a0, _ | ⟨a1, _ | ⟨a2, rest⟩⟩⟩
  · rfl
  · rfl
  · exact absurd rfl h
  · rfl

theorem builtin_streq_arity (r : Runner) (env : InterEnv) (name : String) (args : List Node)
    (h : args.length ≠ 2) :
    builtin_streq r env name args = .ok (EXPECT_fail args.length "== 2", env) := by
  rcases args with _ | ⟨a0, _ | ⟨a1, _ | ⟨a2, rest⟩⟩⟩
  · rfl
  · rfl
  · exact absurd rfl h
  · rfl

theorem builtin_set_arity (r : Runner) (env : InterEnv) (name : String) (args : List Node)
    (h : args.length ≠ 2) :
    builtin_set r env name args = .ok (EXPECT_fail args.length "== 2", env) := by
  rcases args with _ | ⟨a0, _ | ⟨a1, _ | ⟨a2, rest⟩⟩⟩
  · rfl
  · rfl
  · exact absurd rfl h
  · rfl

theorem builtin_print_arity (r : Runner) (env : InterEnv) (name : String) (args : List Node)
    (h : ¬ 1 ≤ args.length) :
    builtin_print r env name args = .ok (EXPECT_fail args.length ">= 1", env) := by
  simp only [builtin_print, ge_iff_le, h, not_false_eq_true, if_true]

theorem builtin_do_arity (r : Runner) (env : InterEnv) (name : String) (args : List Node)
    (h : ¬ 1 ≤ args.length) :
    builtin_do r env name args = .ok (EXPECT_fail args.length ">= 1", env) := by
  simp only [builtin_do, ge_iff_le, h, not_false_eq_true, if_true]

theorem builtin_let_arity (r : Runner) (env : InterEnv) (name : String) (args : List Node)
    (h : ¬ 3 ≤ args.length) :
    builtin_let r env name args = .ok (EXPECT_fail args.length ">= 3", env) := by
  rcases args with _ | ⟨a0, _ | ⟨a1, _ | ⟨a2, rest⟩⟩⟩
  · rfl
  · rfl
  · rfl
  · exact absurd (by simp only [List.length_cons]; omega) h

theorem builtin_if_arity (env : InterEnv) (name : String) (args : List Node)
    (h : ¬ (args.length = 2 ∨ args.length = 3)) :
    ∃ cond : String, ∀ r : Runner,
      builtin_if r env name args = .ok (EXPECT_fail args.length cond, env) := by
  rcases args with _ | ⟨a0, _ | ⟨a1, rest⟩⟩
  · exact ⟨">= 2", fun _ => rfl⟩
  · exact ⟨">= 2", fun _ => rfl⟩
  · refine ⟨"<= 3", fun r => ?_⟩
    have h3 : ¬ (a0 :: a1 :: rest).length ≤ 3 := by
      simp only [List.length_cons] at h ⊢; omega
    simp only [builtin_if, h3, not_false_eq_true, if_true]

theorem callNative_arity (env : InterEnv) (b : Builtin) (args : List Node)
    (hb : b ∈ staticbuiltins) (har : arityAllows b.name args.length = false) :
    ∃ cond : String, ∀ (r : Runner) (g : NumReader),
      callNative r g b.fn env b.name args = .ok (EXPECT_fail args.length cond, env) := by
  simp only [staticbuiltins, List.mem_cons, List.mem_singleton, List.not_mem_nil, or_false] at hb
  rcases hb with h | h | h | h | h | h | h | h | h | h | h | h | h | h <;> subst h
  · exact ⟨">= 1", fun r _ =>
      builtin_print_arity r env "print" args (by simpa [arityAllows] using har)⟩
  · exact ⟨"== 2", fun r _ =>
      builtin_arith_arity r env "+" args (by simpa [arityAllows] using har)⟩
  · exact ⟨"== 2", fun r _ =>
      builtin_arith_arity r env "-" args (by simpa [arityAllows] using har)⟩
  · exact ⟨"== 2", fun r _ =>
      builtin_arith_arity r env "/" args (by simpa [arityAllows] using har)⟩
  · exact ⟨"== 2", fun r _ =>
      builtin_arith_arity r env "*" args (by simpa [arityAllows] using har)⟩
  · exact ⟨"== 2", fun _ g =>
      builtin_comp_arity g env "eq" args (by simpa [arityAllows] using har)⟩
  · exact ⟨"== 2", fun _ g =>
      builtin_comp_arity g env "neq" args (by simpa [arityAllows] using har)⟩
  · exact ⟨"== 2", fun _ g =>
      builtin_comp_arity g env "lt" args (by simpa [arityAllows] using har)⟩
  · exact ⟨"== 2", fun _ g =>
      builtin_comp_arity g env "gt" args (by simpa [arityAllows] using har)⟩
  · exact ⟨">= 1", fun r _ =>
      builtin_do_arity r env "do" args (by simpa [arityAllows] using har)⟩
  · obtain ⟨cond, hc⟩ := builtin_if_arity env "if" args (by simpa [arityAllows] using har)
    exact ⟨cond, fun r _ => hc r⟩
  · exact ⟨"== 2", fun r _ =>
      builtin_set_arity r env "set" args (by simpa [arityAllows] using har)⟩
  · exact ⟨">= 3", fun r _ =>
      builtin_let_arity r env "let" args (by simpa [arityAllows] using har)⟩
  · exact ⟨"== 2", fun r _ =>
      builtin_streq_arity r env "streq" args (by simpa [arityAllows] using har)⟩

/-- C17: when a registry entry is called with an argument count that the
arity table does not allow, the call returns the arity error "expected nargs
(%d) to be %s" (with the count and the violated bound) and no node, and
returns the environment unchanged.  The entry's native callable does so with
any evaluator and any number reader given to it, and `run` does so with depth
budget 1: no argument is evaluated. -/
theorem C17_arity_error_before_any_evaluation (fuel : Nat) (env : InterEnv) (b : Builtin)
    (args : List Node) (hb : b ∈ staticbuiltins)
    (har : arityAllows b.name args.length = false) :
    ∃ cond : String,
      run (fuel + 1) env (.expr (.var b.name :: args))
          = .ok ({ node := none,
                   err := some { format := "expected nargs (%d) to be %s",
                                 args := [FmtArg.d args.length, FmtArg.s cond] } }, env)
        ∧ ∀ (r : Runner) (g : NumReader),
            callNative r g b.fn env b.name args
              = .ok ({ node := none,
                       err := some { format := "expected nargs (%d) to be %s",
                                     args := [FmtArg.d args.length, FmtArg.s cond] } },
                     env) := by
  obtain ⟨cond, hc⟩ := callNative_arity env b args hb har
  refine ⟨cond, ?_, fun r g => (hc r g).trans rfl⟩
  rw [run_builtin fuel env b args (getBuiltin_of_mem b hb), hc]
  rfl

/-- C17 at `(do)` and `(+ 1)` in an environment that binds `x`, with depth
budget 1. -/
theorem C17_arity_error_before_any_evaluation_witness :
    (∃ cond : String,
      run 1 { vars := [("x", .str "kept")], stdout := [] } (.expr [.var "do"])
          = .ok ({ node := none,
                   err := some { format := "expected nargs (%d) to be %s",
                                 args := [FmtArg.d 0, FmtArg.s cond] } },
                 { vars := [("x", .str "kept")], stdout := [] }))
      ∧ (∃ cond : String,
        run 1 { vars := [("x", .str "kept")], stdout := [] }
            (.expr [.var "+", .num (Double.ofNat 1)])
          = .ok ({ node := none,
                   err := some { format := "expected nargs (%d) to be %s",
                                 args := [FmtArg.d 1, FmtArg.s cond] } },
                 { vars := [("x", .str "kept")], stdout := [] }))
      ∧ run 1 { vars := [("x", .str "kept")], stdout := [] } (.expr [.var "do"])
          = .ok ({ node := none,
                   err := some { format := "expected nargs (%d) to be %s",
                                 args := [FmtArg.d 0, FmtArg.s ">= 1"] } },
                 { vars := [("x", .str "kept")], stdout := [] })
      ∧ run 1 { vars := [("x", .str "kept")], stdout := [] }
            (.expr [.var "+", .num (Double.ofNat 1)])
          = .ok ({ node := none,
                   err := some { format := "expected nargs (%d) to be %s",
                                 args := [FmtArg.d 1, FmtArg.s "== 2"] } },
                 { vars := [("x", .str "kept")], stdout := [] }) :=
  ⟨(C17_arity_error_before_any_evaluation 0 { vars := [("x", .str "kept")], stdout := [] }
      { name := "do", enabled := true, fn := .builtin_do } [] (by decide) (by decide)).imp
      fun _ h => h.1,
   (C17_arity_error_before_any_evaluation 0 { vars := [("x", .str "kept")], stdout := [] }
      { name := "+", enabled := true, fn := .builtin_arith } [.num (Double.ofNat 1)]
      (by decide) (by decide)).imp fun _ h => h.1,
   rfl, rfl⟩

theorem run_do (fuel : Nat) (env : InterEnv) (args : List Node) :
    run (fuel + 1) env (.expr (.var "do" :: args)) = builtin_do (run fuel) env "do" args :=
  run_builtin fuel env { name := "do", enabled := true, fn := .builtin_do } args rfl

theorem builtin_do_loop_of_runsInOrder (r : Runner) (bs : List Node) :
    ∀ (b : Node) (env : InterEnv) (prev : Option RunResult) (res : RunResult)
      (envn : InterEnv), RunsInOrder r env b bs res envn →
      builtin_do.loop r (b :: bs) env prev = .ok (res, envn) := by
  induction bs with
  | nil =>
    intro b env prev res envn h
    obtain ⟨hb, he⟩ := h
    simp only [builtin_do.loop, hb, he, return_rr]
  | cons b' bs ih =>
    intro b env prev res envn h
    obtain ⟨r1, env1, hb, he, hrest⟩ := h
    have := ih b' env1 (some r1) res envn hrest
    simp only [builtin_do.loop, hb, he] at this ⊢
    exact this

theorem builtin_do_loop_of_runsAll_then_error (r : Runner) (pre : List Node) :
    ∀ (env envi enve : InterEnv) (prev : Option RunResult) (a : Node) (post : List Node)
      (re : RunResult) (e : ErrText),
      RunsAll r env pre envi → r envi a = .ok (re, enve) → re.err = some e →
      builtin_do.loop r (pre ++ a :: post) env prev = .ok (re, enve) := by
  induction pre with
  | nil =>
    intro env envi enve prev a post re e hpre ha he
    have : envi = env := hpre
    subst this
    simp only [List.nil_append, builtin_do.loop, ha, he]
  | cons b pre ih =>
    intro env envi enve prev a post re e hpre ha he
    obtain ⟨r1, env1, hb, hbe, hrest⟩ := hpre
    have := ih env1 envi enve (some r1) a post re e hrest ha he
    simp only [List.cons_append, builtin_do.loop, hb, hbe]
    exact this

/-- C18: a `do` call evaluates its arguments from left to right, each in the
environment left by the one before it.  When all of `b :: bs` succeed, with
last result `r` and final environment `envn`, the call returns exactly `r` in
`envn`.  When the arguments `pre` succeed, leaving `envi`, and the next
argument `a` fails there with result `re`, the call returns exactly `re` in
the environment `a` left, whatever the later arguments `post` are. -/
theorem C18_do_runs_in_order (fuel : Nat) (env : InterEnv) :
    (∀ (b : Node) (bs : List Node) (r : RunResult) (envn : InterEnv),
        RunsInOrder (run fuel) env b bs r envn →
        run (fuel + 1) env (.expr (.var "do" :: b :: bs)) = .ok (r, envn))
      ∧ (∀ (pre : List Node) (a : Node) (post : List Node) (envi enve : InterEnv)
            (re : RunResult) (e : ErrText),
          RunsAll (run fuel) env pre envi → run fuel envi a = .ok (re, enve) →
          re.err = some e →
          run (fuel + 1) env (.expr (.var "do" :: (pre ++ a :: post))) = .ok (re, enve)) := by
  constructor
  · intro b bs r envn h
    rw [run_do]
    have hlen : ¬ ¬ (b :: bs).length ≥ 1 := by simp
    simp only [builtin_do, hlen, if_false]
    exact builtin_do_loop_of_runsInOrder (run fuel) bs b env none r envn h
  · intro pre a post envi enve re e hpre ha he
    rw [run_do]
    have hlen : ¬ ¬ (pre ++ a :: post).length ≥ 1 := by simp
    simp only [builtin_do, hlen, if_false]
    exact builtin_do_loop_of_runsAll_then_error (run fuel) pre env envi enve none a post re e
      hpre ha he

/-- C18 at `(do (set x 1) x)`, which returns 1 with `x` bound, and at
`(do (set x 1) (2) (set x 3))`, which returns the error of `(2)` with `x`
still bound to 1. -/
theorem C18_do_runs_in_order_witness :
    run 3 in_make
        (.expr [.var "do", .expr [.var "set", .var "x", .num (Double.ofNat 1)], .var "x"])
        = .ok ({ node := some (.num (Double.ofNat 1)), err := none },
               { vars := [("x", .num (Double.ofNat 1))], stdout := [] })
      ∧ run 3 in_make
          (.expr [.var "do", .expr [.var "set", .var "x", .num (Double.ofNat 1)],
            .expr [.num (Double.ofNat 2)],
            .expr [.var "set", .var "x", .num (Double.ofNat 3)]])
        = .ok ({ node := none,
                 err := some { format := "Cannot call non-variable (type %s)",
                               args := [FmtArg.typetostr NodeType.AST_NUM] } },
               { vars := [("x", .num (Double.ofNat 1))], stdout := [] }) :=
  ⟨(C18_do_runs_in_order 2 in_make).1
      (.expr [.var "set", .var "x", .num (Double.ofNat 1)]) [.var "x"]
      { node := some (.num (Double.ofNat 1)), err := none }
      { vars := [("x", .num (Double.ofNat 1))], stdout := [] }
      ⟨{ node := none, err := none }, { vars := [("x", .num (Double.ofNat 1))], stdout := [] },
        rfl, rfl, rfl, rfl⟩,
   (C18_do_runs_in_order 2 in_make).2
      [.expr [.var "set", .var "x", .num (Double.ofNat 1)]] (.expr [.num (Double.ofNat 2)])
      [.expr [.var "set", .var "x", .num (Double.ofNat 3)]]
      { vars := [("x", .num (Double.ofNat 1))], stdout := [] }
      { vars := [("x", .num (Double.ofNat 1))], stdout := [] }
      { node := none,
        err := some { format := "Cannot call non-variable (type %s)",
                      args := [FmtArg.typetostr NodeType.AST_NUM] } }
      { format := "Cannot call non-variable (type %s)",
        args := [FmtArg.typetostr NodeType.AST_NUM] }
      ⟨{ node := none, err := none }, { vars := [("x", .num (Double.ofNat 1))], stdout := [] },
        rfl, rfl, rfl⟩ rfl rfl⟩

/-! ## Evaluation keeps values -/

theorem valueEnv_write (env : InterEnv) (e : OutEvent) :
    ValueEnv (env.write e) = ValueEnv env := rfl

end Schym
